import Mathlib

set_option maxRecDepth 4000

/-!
Shallow embedding of `pkg/cloud/services/compute/instance.go` from
cluster-api-provider-openstack.

Backend (OpenStack API) calls are modelled by explicit environment records of
functions returning `Except GoErr α`; error classification (`IsNotFound`,
`IsRetryable`) is carried on the error value, and wrapping an error with
`fmt.Errorf("...%v", err)` produces a plain error whose classification flags
are lost (both false), as in Go where `%v` formatting drops the error type.
Functions that also perform backend mutations return the list of backend
calls they issued (`List Call`) alongside their result.
-/

/-- A Go error value: its message together with the classification that
`capoerrors.IsNotFound` / `capoerrors.IsRetryable` would report for it. -/
structure GoErr where
  msg : String
  isNotFound : Bool
  isRetryable : Bool
deriving DecidableEq, Repr

/-- `fmt.Errorf` with `%v` verbs: the resulting error has lost any
not-found/retryable classification of the errors interpolated into it. -/
def wrapErr (msg : String) : GoErr :=
  { msg := msg, isNotFound := false, isRetryable := false }

/-- A fixed IP / subnet pair on a port (`ports.IP`). -/
structure FixedIP where
  subnetID : String
  ipAddress : String
deriving DecidableEq, Repr

/-- A Neutron port (the fields of `ports.Port` that `instance.go` reads). -/
structure Port where
  id : String
  networkID : String
  fixedIPs : List FixedIP
deriving DecidableEq, Repr

/-- `infrav1.Subnet` (only the `ID` field is used). -/
structure Subnet where
  id : String
deriving DecidableEq, Repr

/-- `infrav1.Network`: a resolved network attachment.  The Go `Subnet` field is
a nullable pointer, modelled as `Option`. -/
structure Network where
  id : String
  subnet : Option Subnet
deriving DecidableEq, Repr

/-- A Glance image (the fields of `images.Image` that `getImageID` reads). -/
structure Image where
  id : String
  name : String
deriving DecidableEq, Repr

/-- One entry of the server's untyped address list, after the normalizing JSON
parse in `GetIPFromInstance` (`addr`, `version`, `OS-EXT-IPS:type`). -/
structure NetIf where
  address : String
  version : Nat
  ipType : String
deriving DecidableEq, Repr

/-- A Nova server (the fields of `servers.Server` that `instance.go` reads).
`addresses` holds the values of the server's address map; Go map iteration
order is represented by the list order. -/
structure Server where
  id : String
  name : String
  keyName : String
  status : String
  accessIPv4 : String
  addresses : List (List NetIf)
deriving DecidableEq, Repr

/-- `infrav1.Instance` as produced by `serverToInstance` (output record). -/
structure Instance where
  id : String
  name : String
  sshKeyName : String
  state : String
  ip : String
  floatingIP : String
deriving DecidableEq, Repr

/-- `infrav1.RootVolume`. -/
structure RootVolume where
  sourceType : String
  sourceUUID : String
  size : Int
  deviceType : String
deriving DecidableEq, Repr

/-- `bootfromvolume.BlockDevice`. -/
structure BlockDevice where
  sourceType : String
  bootIndex : Int
  uuid : String
  deleteOnTermination : Bool
  destinationType : String
  volumeSize : Int
  deviceType : String
deriving DecidableEq, Repr

/-- `schedulerhints.SchedulerHints` (only the `Group` field is used). -/
structure SchedulerHints where
  group : String
deriving DecidableEq, Repr

/-- `servers.CreateOpts`, the base create payload.  `networks` holds the port
ids of the `servers.Network{Port: ...}` entries. -/
structure CreateOpts where
  name : String
  imageRef : String
  flavorRef : String
  availabilityZone : String
  networks : List String
  userData : String
  securityGroups : List String
  tags : List String
  metadata : List (String × String)
  configDrive : Option Bool
  accessIPv4 : String
deriving DecidableEq, Repr

/-- `servers.CreateOptsBuilder`: the base payload optionally wrapped by the
boot-from-volume extension, the scheduler-hints extension, and the key-pair
extension. -/
inductive CreateOptsBuilder where
  | base (opts : CreateOpts)
  | bootFromVolumeExt (inner : CreateOptsBuilder) (blockDevice : List BlockDevice)
  | schedulerHintsExt (inner : CreateOptsBuilder) (hints : SchedulerHints)
  | keypairsExt (inner : CreateOptsBuilder) (keyName : String)
deriving DecidableEq, Repr

/-- The tag list of the base payload beneath any extensions. -/
def CreateOptsBuilder.baseTags : CreateOptsBuilder → List String
  | .base opts => opts.tags
  | .bootFromVolumeExt inner _ => inner.baseTags
  | .schedulerHintsExt inner _ => inner.baseTags
  | .keypairsExt inner _ => inner.baseTags

/-- `ports.CreateOpts` as built by `createPort`.  An empty
`fixedIPSubnetID` means no `FixedIPs` entry was set. -/
structure PortCreateOpts where
  name : String
  networkID : String
  securityGroups : List String
  description : String
  fixedIPSubnetID : String
deriving DecidableEq, Repr

/-- A backend call issued by the orchestrator, as recorded in traces. -/
inductive Call where
  | listImages (name : String)
  | listPorts (name networkID : String)
  | createPort (opts : PortCreateOpts)
  | getPort (portID : String)
  | deletePort (portID : String)
  | listTrunksByName (name portID : String)
  | createTrunk (name portID : String)
  | replaceTrunkTags (trunkID : String) (tags : List String)
  | createServer (opts : CreateOptsBuilder)
  | listInterfaces (serverID : String)
  | getExtensions
  | detachInterface (serverID portID : String)
  | listTrunksByPort (portID : String)
  | deleteTrunk (trunkID : String)
  | deleteServer (serverID : String)
  | listServers (namePattern : String)
deriving DecidableEq, Repr

/-! ### Pure helpers: `deduplicate`, `isDuplicate`, the payload decorators and
`getImageID` -/

/-- The loop of `deduplicate`: walk the input keeping a `set` of seen strings
and the `unique` output slice. -/
def dedupGo : List String → List String → List String → List String
  | [], _, unique => unique
  | s :: rest, seen, unique =>
    if seen.contains s then dedupGo rest seen unique
    else dedupGo rest (s :: seen) (unique ++ [s])

/-- `deduplicate` from `instance.go`: filters out duplicate string occurrences,
keeping first occurrences in order. -/
def deduplicate (sequence : List String) : List String :=
  dedupGo sequence [] []

/-- Specification-level first-occurrence deduplication: keep each string's
first occurrence in order, drop all later occurrences. -/
def firstOccurrenceDedup : List String → List String
  | [] => []
  | s :: rest => s :: firstOccurrenceDedup (rest.filter (fun x => decide (x ≠ s)))
termination_by l => l.length
decreasing_by
  simp only [List.length_cons]
  exact Nat.lt_succ_of_le (List.length_filter_le _ _)

/-- `isDuplicate` from `instance.go`. -/
def isDuplicate (list : List String) (name : String) : Bool :=
  if list.length = 0 then false
  else list.contains name

/-- The block device built by `applyRootVolume` from a root-volume override. -/
def rootBlockDevice (rootVolume : RootVolume) : BlockDevice :=
  { sourceType := rootVolume.sourceType
    bootIndex := 0
    uuid := rootVolume.sourceUUID
    deleteOnTermination := true
    destinationType := "volume"
    volumeSize := rootVolume.size
    deviceType := rootVolume.deviceType }

/-- `applyRootVolume`: sets a root volume if the root volume `Size` is not 0. -/
def applyRootVolume (opts : CreateOptsBuilder) (rootVolume : Option RootVolume) :
    CreateOptsBuilder :=
  match rootVolume with
  | some rv =>
    if rv.size ≠ 0 then .bootFromVolumeExt opts [rootBlockDevice rv]
    else opts
  | none => opts

/-- `applyServerGroupID`: adds a scheduler hint if the server group id is
non-empty. -/
def applyServerGroupID (opts : CreateOptsBuilder) (serverGroupID : String) :
    CreateOptsBuilder :=
  if serverGroupID ≠ "" then
    .schedulerHintsExt opts { group := serverGroupID }
  else opts

/-- `getImageID`: resolve an image name to an id.  `listImages` is the Glance
list-by-name backend call. -/
def getImageID (listImages : String → Except GoErr (List Image))
    (imageName : String) : Except GoErr String :=
  if imageName = "" then .ok ""
  else
    match listImages imageName with
    | .error e => .error e
    | .ok allImages =>
      match allImages with
      | [] => .error (wrapErr ("no image with the name " ++ imageName ++ " could be found"))
      | [img] => .ok img.id
      | _ => .error (wrapErr ("too many images with the name, " ++ imageName ++ ", were found"))

/-! ### `GetIPFromInstance`, `serverToInstance`, `GetInstance`,
`InstanceExists` -/

/-- `GetIPFromInstance`, returning the `(internal, floating)` address pair
(Go's `addrMap` with `""` for a missing key).  `parseIP` models
`net.ParseIP(...) != nil`.  The JSON round-trip of the address list cannot
fail on the typed model. -/
def GetIPFromInstance (parseIP : String → Bool) (v : Server) : String × String :=
  if v.accessIPv4 ≠ "" && parseIP v.accessIPv4 then (v.accessIPv4, "")
  else
    v.addresses.foldl (fun acc networkList =>
      networkList.foldl (fun acc2 netIf =>
        if netIf.version = 4 then
          if netIf.ipType = "floating" then (acc2.1, netIf.address)
          else (netIf.address, acc2.2)
        else acc2) acc) ("", "")

/-- `serverToInstance`: a nil server maps to a nil instance. -/
def serverToInstance (parseIP : String → Bool) (v : Option Server) : Option Instance :=
  match v with
  | none => none
  | some s =>
    let addrs := GetIPFromInstance parseIP s
    some { id := s.id, name := s.name, sshKeyName := s.keyName, state := s.status,
           ip := addrs.1, floatingIP := addrs.2 }

/-- `Service.GetInstance`.  `getServer` is the `servers.Get` backend call. -/
def GetInstance (getServer : String → Except GoErr Server)
    (parseIP : String → Bool) (resourceID : String) :
    Except GoErr (Option Instance) :=
  if resourceID = "" then .error (wrapErr "resourceId should be specified to get detail")
  else
    match getServer resourceID with
    | .error e =>
      if e.isNotFound then .ok none
      else .error (wrapErr ("get server \"" ++ resourceID ++ "\" detail failed: " ++ e.msg))
    | .ok server => .ok (serverToInstance parseIP (some server))

/-- The documented contract of the `/servers` name filter (see the comment in
`InstanceExists`): the parameter is a regular expression, and the anchored
pattern `^s$` built from a literal name `s` matches exactly the server names
equal to `s`. -/
def anchoredPatternMatches (pattern serverName : String) : Bool :=
  pattern == "^" ++ serverName ++ "$"

/-- The backend's server listing under a name-regex filter: an empty pattern
lists every server, a pattern filters by `anchoredPatternMatches`. -/
def backendListServers (allServers : List Server) (pattern : String) : List Server :=
  if pattern = "" then allServers
  else allServers.filter (fun s => anchoredPatternMatches pattern s.name)

/-- Environment of `InstanceExists`: the servers the backend holds, an
optional listing failure, and the address parser. -/
structure ExistsEnv where
  allServers : List Server
  listFailure : Option GoErr
  parseIP : String → Bool

/-- `Service.InstanceExists`: find an instance by name, wrapping the name as
the anchored regular expression `^name$` for a whole-string match. -/
def InstanceExists (env : ExistsEnv) (name : String) :
    List Call × Except GoErr (Option Instance) :=
  let pattern := if name ≠ "" then "^" ++ name ++ "$" else ""
  match env.listFailure with
  | some e => ([.listServers pattern], .error (wrapErr ("get server list: " ++ e.msg)))
  | none =>
    match (backendListServers env.allServers pattern).map
        (fun s => serverToInstance env.parseIP (some s)) with
    | [] => ([.listServers pattern], .ok none)
    | i :: _ => ([.listServers pattern], .ok i)

/-! ### Create-side environment and security group / network resolution -/

/-- `groups.ListOpts` as assembled by `getSecurityGroups` (project id from the
filter or the service, name and id overridden from the param). -/
structure SGListOpts where
  projectID : String
  name : String
  id : String
deriving DecidableEq, Repr

/-- `infrav1.SecurityGroupParam` (the filter modelled by its project id). -/
structure SGParam where
  name : String
  uuid : String
  filterProjectID : String
deriving DecidableEq, Repr

/-- `networks.ListOpts` as assembled by `getServerNetworks`: the param's
filter (abstract payload) with `ID` overridden from the param's UUID. -/
structure NetworkListOpts where
  filter : String
  id : String
deriving DecidableEq, Repr

/-- `subnets.ListOpts` as assembled by `getServerNetworks`: the subnet
filter (abstract payload) with `ID` and `NetworkID` overridden. -/
structure SubnetListOpts where
  filter : String
  id : String
  networkID : String
deriving DecidableEq, Repr

/-- `infrav1.SubnetParam`. -/
structure SubnetParam where
  uuid : String
  filter : String
deriving DecidableEq, Repr

/-- `infrav1.NetworkParam`.  The Go `Subnets` slice distinguishes nil from
empty, modelled as `Option (List SubnetParam)`. -/
structure NetworkParam where
  uuid : String
  filter : String
  subnets : Option (List SubnetParam)
deriving DecidableEq, Repr

/-- A subnet returned by `networking.GetSubnetsByFilter` (only `ID` and
`NetworkID` are read). -/
structure SubnetResult where
  id : String
  networkID : String
deriving DecidableEq, Repr

/-- The backend environment consumed by `InstanceCreate`/`createInstance`.
Each field is one backend operation; `extensions` yields the aliases of the
listed network extensions; `getServerAt n` is the `servers.Get` response at
the n-th status poll attempt. -/
structure Env where
  projectID : String
  extensions : Except GoErr (List String)
  listSecurityGroups : SGListOpts → Except GoErr (List String)
  resolveNetworks : NetworkListOpts → Except GoErr (List String)
  subnetsByFilter : SubnetListOpts → Except GoErr (List SubnetResult)
  listImagesByName : String → Except GoErr (List Image)
  listPorts : String → String → Except GoErr (List Port)
  createPort : PortCreateOpts → Except GoErr Port
  getPort : String → Except GoErr Port
  deletePort : String → Except GoErr Unit
  listTrunks : String → String → Except GoErr (List String)
  createTrunk : String → String → Except GoErr String
  replaceTrunkTags : String → List String → Except GoErr Unit
  flavorID : String → Except GoErr String
  createServer : CreateOptsBuilder → Except GoErr String
  getServerAt : Nat → String → Except GoErr Server
  parseIP : String → Bool

/-- `getTrunkSupport`: list the network extensions and report whether one has
alias `trunk`. -/
def getTrunkSupport (extensions : Except GoErr (List String)) : Except GoErr Bool :=
  match extensions with
  | .error e => .error e
  | .ok allExts => .ok (allExts.contains "trunk")

/-- The inner loop of `getSecurityGroups`: append each found group id unless
`isDuplicate` reports it already present. -/
def appendUniqueIDs (sgIDs : List String) : List String → List String
  | [] => sgIDs
  | g :: rest =>
    if isDuplicate sgIDs g then appendUniqueIDs sgIDs rest
    else appendUniqueIDs (sgIDs ++ [g]) rest

/-- The loop of `getSecurityGroups` over the security group params. -/
def getSecurityGroupsLoop (env : Env) : List SGParam → List String → Except GoErr (List String)
  | [], sgIDs => .ok sgIDs
  | p :: rest, sgIDs =>
    match env.listSecurityGroups
        { projectID := if p.filterProjectID = "" then env.projectID else p.filterProjectID
          name := p.name, id := p.uuid } with
    | .error e => .error e
    | .ok sgList =>
      if sgList.isEmpty then .error (wrapErr ("security group " ++ p.name ++ " not found"))
      else getSecurityGroupsLoop env rest (appendUniqueIDs sgIDs sgList)

/-- `getSecurityGroups`: resolve every security group param to ids; an
unresolved name is a hard error. -/
def getSecurityGroups (env : Env) (securityGroupParams : List SGParam) :
    Except GoErr (List String) :=
  getSecurityGroupsLoop env securityGroupParams []

/-- Modelled from the spec: `GetNetworkIDsByFilter` lives in
`pkg/cloud/services/networking` and is not part of the embedded source; per
the spec invariant "every resolved attachment yields a network id; an
attachment that resolves to zero networks is an error, not an empty result",
a filter that the backend resolves to zero networks yields an error. -/
def getNetworkIDsByFilter (resolveNetworks : NetworkListOpts → Except GoErr (List String))
    (opts : NetworkListOpts) : Except GoErr (List String) :=
  match resolveNetworks opts with
  | .error e => .error e
  | .ok [] => .error (wrapErr "no networks could be found with the filters provided")
  | .ok ids => .ok ids

/-- The subnet loop of `getServerNetworks` for one network id: each subnet
filter result contributes one attachment. -/
def subnetLoopFor (env : Env) (netID : String) :
    List SubnetParam → List Network → Except GoErr (List Network)
  | [], nets => .ok nets
  | sp :: rest, nets =>
    match env.subnetsByFilter { filter := sp.filter, id := sp.uuid, networkID := netID } with
    | .error e => .error e
    | .ok subnetsByFilter =>
      subnetLoopFor env netID rest
        (nets ++ subnetsByFilter.map (fun sr =>
          { id := sr.networkID, subnet := some { id := sr.id } }))

/-- The network-id loop of `getServerNetworks` for one network param. -/
def idsLoop (env : Env) (p : NetworkParam) :
    List String → List Network → Except GoErr (List Network)
  | [], nets => .ok nets
  | netID :: rest, nets =>
    match p.subnets with
    | none => idsLoop env p rest (nets ++ [{ id := netID, subnet := none }])
    | some subnetParams =>
      match subnetLoopFor env netID subnetParams nets with
      | .error e => .error e
      | .ok nets2 => idsLoop env p rest nets2

/-- The outer loop of `getServerNetworks` over the network params. -/
def getServerNetworksLoop (env : Env) : List NetworkParam → List Network → Except GoErr (List Network)
  | [], nets => .ok nets
  | p :: rest, nets =>
    match getNetworkIDsByFilter env.resolveNetworks { filter := p.filter, id := p.uuid } with
    | .error e => .error e
    | .ok ids =>
      match idsLoop env p ids nets with
      | .error e => .error e
      | .ok nets2 => getServerNetworksLoop env rest nets2

/-- `getServerNetworks`: resolve every network attachment request. -/
def getServerNetworks (env : Env) (networkParams : List NetworkParam) :
    Except GoErr (List Network) :=
  getServerNetworksLoop env networkParams []

/-! ### Port and trunk provisioning (`createPort` and the port loop of
`createInstance`) -/

/-- The input instance record built by `InstanceCreate` and consumed by
`createInstance` (the input-side fields of `infrav1.Instance`). -/
structure InstanceIn where
  name : String
  image : String
  flavor : String
  sshKeyName : String
  userData : String
  metadata : List (String × String)
  configDrive : Option Bool
  failureDomain : String
  rootVolume : Option RootVolume
  subnet : String
  trunk : Bool
  tags : List String
  securityGroups : List String
  networks : List Network
  serverGroupID : String
deriving Repr

/-- The `ports.CreateOpts` assembled by `createPort`: name, network,
security groups, a cluster-identifying description, and a fixed IP pinned to
the network's subnet when one is set (a nil `Subnet` pointer is modelled as
an empty subnet id). -/
def portCreateOptsFor (clusterName name : String) (n : Network)
    (securityGroups : List String) : PortCreateOpts :=
  { name := name, networkID := n.id, securityGroups := securityGroups
    description := "Created by cluster-api-provider-openstack cluster " ++ clusterName
    fixedIPSubnetID := match n.subnet with | some s => s.id | none => "" }

/-- `createPort`: create a port with the assembled options. -/
def createPort (env : Env) (clusterName name : String) (n : Network)
    (securityGroups : List String) : List Call × Except GoErr Port :=
  match env.createPort (portCreateOptsFor clusterName name n securityGroups) with
  | .error e =>
    ([.createPort (portCreateOptsFor clusterName name n securityGroups)],
     .error (wrapErr ("create port for server: " ++ e.msg)))
  | .ok newPort =>
    ([.createPort (portCreateOptsFor clusterName name n securityGroups)], .ok newPort)

/-- The trunk block of the port loop: find or create a trunk with the port as
parent, then replace its tag set with the instance tags. -/
def trunkPart (env : Env) (i : InstanceIn) (portID : String) :
    List Call × Except GoErr Unit :=
  match env.listTrunks i.name portID with
  | .error e =>
    ([.listTrunksByName i.name portID],
     .error (wrapErr ("searching for existing trunk for server err: " ++ e.msg)))
  | .ok trunkList =>
    match trunkList with
    | [] =>
      match env.createTrunk i.name portID with
      | .error e =>
        ([.listTrunksByName i.name portID, .createTrunk i.name portID],
         .error (wrapErr ("create trunk for server err: " ++ e.msg)))
      | .ok t =>
        match env.replaceTrunkTags t i.tags with
        | .error e =>
          ([.listTrunksByName i.name portID, .createTrunk i.name portID,
            .replaceTrunkTags t i.tags],
           .error (wrapErr ("tagging trunk for server err: " ++ e.msg)))
        | .ok _ =>
          ([.listTrunksByName i.name portID, .createTrunk i.name portID,
            .replaceTrunkTags t i.tags], .ok ())
    | t :: _ =>
      match env.replaceTrunkTags t i.tags with
      | .error e =>
        ([.listTrunksByName i.name portID, .replaceTrunkTags t i.tags],
         .error (wrapErr ("tagging trunk for server err: " ++ e.msg)))
      | .ok _ =>
        ([.listTrunksByName i.name portID, .replaceTrunkTags t i.tags], .ok ())

/-- One iteration of the port loop for a network: look up an existing port by
(name, network id), else create one; then handle the trunk block when trunk
mode is on. -/
def ensureNetworkStep (env : Env) (clusterName : String) (i : InstanceIn) (n : Network) :
    List Call × Except GoErr Port :=
  match env.listPorts i.name n.id with
  | .error e =>
    ([.listPorts i.name n.id],
     .error (wrapErr ("searching for existing port for server: " ++ e.msg)))
  | .ok portList =>
    match
      (match portList with
       | [] =>
         match createPort env clusterName i.name n i.securityGroups with
         | (tr, .error e) => (tr, Except.error (wrapErr ("failed to create port err: " ++ e.msg)))
         | (tr, .ok port) => (tr, Except.ok port)
       | port :: _ => (([] : List Call), Except.ok port)) with
    | (trP, .error e) => (.listPorts i.name n.id :: trP, .error e)
    | (trP, .ok port) =>
      if i.trunk then
        match trunkPart env i port.id with
        | (trT, .error e) => (.listPorts i.name n.id :: (trP ++ trT), .error e)
        | (trT, .ok _) => (.listPorts i.name n.id :: (trP ++ trT), .ok port)
      else (.listPorts i.name n.id :: trP, .ok port)

/-- The accumulated state of the port loop: the access IPv4 address found so
far and the port ids collected for the create payload. -/
structure NetState where
  accessIPv4 : String
  portsList : List String
deriving DecidableEq, Repr

/-- The fixed-IP scan of the port loop: the last fixed IP on the requested
subnet wins. -/
def updateAccessIP (subnet : String) (fixedIPs : List FixedIP) (acc : String) : String :=
  fixedIPs.foldl (fun a fip => if fip.subnetID = subnet then fip.ipAddress else a) acc

/-- The port loop of `createInstance` over the resolved networks. -/
def portLoop (env : Env) (clusterName : String) (i : InstanceIn) :
    List Network → NetState → List Call × Except GoErr NetState
  | [], st => ([], .ok st)
  | n :: rest, st =>
    if n.id = "" then
      ([], .error (wrapErr "no network was found or provided. Please check your machine configuration and try again"))
    else
      match ensureNetworkStep env clusterName i n with
      | (tr, .error e) => (tr, .error e)
      | (tr, .ok port) =>
        match portLoop env clusterName i rest
            { accessIPv4 := updateAccessIP i.subnet port.fixedIPs st.accessIPv4
              portsList := st.portsList ++ [port.id] } with
        | (tr2, r) => (tr ++ tr2, r)

/-- `deletePorts`: the compensating cleanup of `createInstance`.  For each
port: `ports.Get`, and when that reports not-found the function returns nil
at once; otherwise `ports.Delete`, propagating its error. -/
def deletePorts (env : Env) : List String → List Call × Except GoErr Unit
  | [] => ([], .ok ())
  | p :: rest =>
    match env.getPort p with
    | .error e =>
      if e.isNotFound then ([.getPort p], .ok ())
      else
        match env.deletePort p with
        | .error e2 => ([.getPort p, .deletePort p], .error e2)
        | .ok _ =>
          match deletePorts env rest with
          | (tr, r) => (.getPort p :: .deletePort p :: tr, r)
    | .ok _ =>
      match env.deletePort p with
      | .error e2 => ([.getPort p, .deletePort p], .error e2)
      | .ok _ =>
        match deletePorts env rest with
        | (tr, r) => (.getPort p :: .deletePort p :: tr, r)

/-- The convergence wait of `createInstance`: poll `GetInstance` at attempts
`attempt, attempt+1, ...` with `fuel` attempts left until the instance state
is ACTIVE.  A retryable error is swallowed; any other error aborts.  A nil
instance with nil error (server vanished) is treated as a further retry. -/
def waitActive (env : Env) (serverID : String) : Nat → Nat → Except GoErr Instance
  | _, 0 => .error (wrapErr "timed out waiting for the condition")
  | attempt, fuel + 1 =>
    match GetInstance (env.getServerAt attempt) env.parseIP serverID with
    | .error e =>
      if e.isRetryable then waitActive env serverID (attempt + 1) fuel
      else .error e
    | .ok (some inst) =>
      if inst.state = "ACTIVE" then .ok inst
      else waitActive env serverID (attempt + 1) fuel
    | .ok none => waitActive env serverID (attempt + 1) fuel

/-- The base `servers.CreateOpts` payload assembled by `createInstance`. -/
def baseCreateOpts (i : InstanceIn) (imageID flavorID : String) (st : NetState) : CreateOpts :=
  { name := i.name, imageRef := imageID, flavorRef := flavorID
    availabilityZone := i.failureDomain, networks := st.portsList
    userData := i.userData, securityGroups := i.securityGroups
    tags := i.tags, metadata := i.metadata, configDrive := i.configDrive
    accessIPv4 := st.accessIPv4 }

/-- The decorated create payload: the base payload through `applyRootVolume`
and `applyServerGroupID`, wrapped in the key-pair extension. -/
def finalCreateOpts (i : InstanceIn) (imageID flavorID : String) (st : NetState) :
    CreateOptsBuilder :=
  CreateOptsBuilder.keypairsExt
    (applyServerGroupID
      (applyRootVolume (CreateOptsBuilder.base (baseCreateOpts i imageID flavorID st))
        i.rootVolume)
      i.serverGroupID)
    i.sshKeyName

/-- `createInstance`: resolve the image, ensure ports (and trunks), enforce
the access-subnet invariant (cleaning up the collected ports on violation),
resolve the flavor, build the decorated create payload, create the server
(cleaning up the ports on failure) and wait for it to become active. -/
def createInstance (env : Env) (fuel : Nat) (clusterName : String) (i : InstanceIn) :
    List Call × Except GoErr Instance :=
  let imageTrace : List Call := if i.image = "" then [] else [.listImages i.image]
  match getImageID env.listImagesByName i.image with
  | .error e => (imageTrace, .error (wrapErr ("create new server err: " ++ e.msg)))
  | .ok imageID =>
    match portLoop env clusterName i i.networks { accessIPv4 := "", portsList := [] } with
    | (tr1, .error e) => (imageTrace ++ tr1, .error e)
    | (tr1, .ok st) =>
      if i.subnet ≠ "" ∧ st.accessIPv4 = "" then
        match deletePorts env st.portsList with
        | (tr2, .error e) =>
          (imageTrace ++ tr1 ++ tr2,
           .error (wrapErr ("no ports with fixed IPs found on Subnet \"" ++ i.subnet ++
             "\": error cleaning up ports: " ++ e.msg)))
        | (tr2, .ok _) =>
          (imageTrace ++ tr1 ++ tr2,
           .error (wrapErr ("no ports with fixed IPs found on Subnet \"" ++ i.subnet ++ "\"")))
      else
        match env.flavorID i.flavor with
        | .error e =>
          (imageTrace ++ tr1,
           .error (wrapErr ("error getting flavor id from flavor name " ++ i.flavor ++ ": " ++ e.msg)))
        | .ok flavorID =>
          match env.createServer (finalCreateOpts i imageID flavorID st) with
          | .error e =>
            match deletePorts env st.portsList with
            | (tr2, .error e2) =>
              (imageTrace ++ tr1 ++ [.createServer (finalCreateOpts i imageID flavorID st)] ++ tr2,
               .error (wrapErr ("error recover creating Openstack instance: error cleaning up ports: " ++ e2.msg)))
            | (tr2, .ok _) =>
              (imageTrace ++ tr1 ++ [.createServer (finalCreateOpts i imageID flavorID st)] ++ tr2,
               .error (wrapErr ("error creating Openstack instance: " ++ e.msg)))
          | .ok serverID =>
            match waitActive env serverID 0 fuel with
            | .error e =>
              (imageTrace ++ tr1 ++ [.createServer (finalCreateOpts i imageID flavorID st)],
               .error (wrapErr ("error creating Openstack instance " ++ serverID ++ ", " ++ e.msg)))
            | .ok inst =>
              (imageTrace ++ tr1 ++ [.createServer (finalCreateOpts i imageID flavorID st)], .ok inst)

/-! ### `InstanceCreate` -/

/-- The cluster-side inputs of `InstanceCreate` (`OpenStackCluster` spec and
status fields that `InstanceCreate` reads). -/
structure ClusterIn where
  tags : List String
  managedSecurityGroups : Bool
  controlPlaneSecurityGroupID : String
  workerSecurityGroupID : String
  networkID : String
  networkSubnetID : String
deriving Repr

/-- The CAPI machine input (`machine.Spec.FailureDomain`). -/
structure MachineIn where
  failureDomain : Option String
deriving Repr

/-- The `OpenStackMachine` spec fields that `InstanceCreate` reads. -/
structure OSMachineIn where
  name : String
  image : String
  flavor : String
  sshKeyName : String
  serverMetadata : List (String × String)
  configDrive : Option Bool
  rootVolume : Option RootVolume
  subnet : String
  trunk : Bool
  tags : List String
  securityGroups : List SGParam
  networks : List NetworkParam
deriving Repr

/-- The trunk-support gate of `InstanceCreate`: when trunk mode is requested,
verify the backend supports trunks; the result is the input's trunk flag. -/
def trunkCheck (env : Env) (trunkRequested : Bool) : Except GoErr Bool :=
  if trunkRequested then
    match getTrunkSupport env.extensions with
    | .error e =>
      .error (wrapErr ("there was an issue verifying whether trunk support is available, please disable it: " ++ e.msg))
    | .ok false => .error (wrapErr "there is no trunk support. Please disable it")
    | .ok true => .ok true
  else .ok false

/-- The network selection of `InstanceCreate`: resolve the machine's network
params when any are given, else default to the cluster network and subnet. -/
def serverNetworksFor (env : Env) (cluster : ClusterIn) (m : OSMachineIn) :
    Except GoErr (List Network) :=
  if m.networks.length > 0 then getServerNetworks env m.networks
  else .ok [{ id := cluster.networkID, subnet := some { id := cluster.networkSubnetID } }]

/-- `Service.InstanceCreate`: validate the inputs, deduplicate the machine and
cluster tags, resolve security groups and networks, and call
`createInstance`.  `isControlPlane` models `util.IsControlPlaneMachine`. -/
def InstanceCreate (env : Env) (fuel : Nat) (cluster : ClusterIn) (machine : MachineIn)
    (osMachine : Option OSMachineIn) (clusterName userData : String)
    (isControlPlane : Bool) : List Call × Except GoErr Instance :=
  match osMachine with
  | none => ([], .error (wrapErr "create Options need be specified to create instace"))
  | some m =>
    match machine.failureDomain with
    | none => ([], .error (wrapErr "failure domain not set"))
    | some fd =>
      match trunkCheck env m.trunk with
      | .error e => ([], .error e)
      | .ok trunkFlag =>
        match getSecurityGroups env m.securityGroups with
        | .error e => ([], .error e)
        | .ok securityGroups0 =>
          let securityGroups :=
            if cluster.managedSecurityGroups then
              if isControlPlane then securityGroups0 ++ [cluster.controlPlaneSecurityGroupID]
              else securityGroups0 ++ [cluster.workerSecurityGroupID]
            else securityGroups0
          match serverNetworksFor env cluster m with
          | .error e => ([], .error e)
          | .ok nets =>
            createInstance env fuel clusterName
              { name := m.name, image := m.image, flavor := m.flavor
                sshKeyName := m.sshKeyName, userData := userData
                metadata := m.serverMetadata, configDrive := m.configDrive
                failureDomain := fd, rootVolume := m.rootVolume, subnet := m.subnet
                trunk := trunkFlag, tags := deduplicate (m.tags ++ cluster.tags)
                securityGroups := securityGroups, networks := nets, serverGroupID := "" }

/-! ### Teardown: `deleteInstance` and `InstanceDelete` -/

/-- The backend environment consumed by `InstanceDelete`/`deleteInstance`.
`trunkDeleteResp t n` (resp. `portDeleteResp p n`) is the backend's answer to
the n-th attempt of the polled trunk (resp. port) deletion; `getServerGoneAt n`
is the `servers.Get` response at the n-th disappearance-poll attempt. -/
structure DeleteEnv where
  interfaces : String → Except GoErr (List String)
  extensions : Except GoErr (List String)
  detach : String → String → Except GoErr Unit
  trunksOfPort : String → Except GoErr (List String)
  trunkDeleteResp : String → Nat → Except GoErr Unit
  portDeleteResp : String → Nat → Except GoErr Unit
  serverDelete : String → Except GoErr Unit
  parseProviderID : String → Except GoErr String
  getServerGoneAt : Nat → String → Except GoErr Server
  parseIP : String → Bool

/-- `util.PollImmediate` specialised to the polled resource deletions of
`deleteInstance`: issue `call` once per attempt; success ends the poll, a
retryable error is swallowed and the poll continues, any other error or the
timeout (fuel exhausted) yields the fatal wrapped error `errMsg`. -/
def pollDelete (respond : Nat → Except GoErr Unit) (call : Call) (errMsg : String) :
    Nat → Nat → List Call × Except GoErr Unit
  | _, 0 => ([], .error (wrapErr errMsg))
  | attempt, fuel + 1 =>
    match respond attempt with
    | .ok _ => ([call], .ok ())
    | .error e =>
      if e.isRetryable then
        match pollDelete respond call errMsg (attempt + 1) fuel with
        | (tr, r) => (call :: tr, r)
      else ([call], .error (wrapErr errMsg))

/-- The trunk block of `deleteInstance` for one port: when trunk support
exists and exactly one trunk is bound to the port, delete that trunk, polled
to completion. -/
def trunkTeardown (env : DeleteEnv) (fuel : Nat) (trunkSupport : Bool) (portID : String) :
    List Call × Except GoErr Unit :=
  if trunkSupport then
    match env.trunksOfPort portID with
    | .error e => ([.listTrunksByPort portID], .error e)
    | .ok [t] =>
      match pollDelete (env.trunkDeleteResp t) (.deleteTrunk t)
          ("error deleting the trunk " ++ t) 0 fuel with
      | (tr, r) => (.listTrunksByPort portID :: tr, r)
    | .ok _ => ([.listTrunksByPort portID], .ok ())
  else ([], .ok ())

/-- The body of the interface loop of `deleteInstance`: detach the interface,
run the trunk block, then delete the port, polled to completion. -/
def deleteOneInterface (env : DeleteEnv) (fuel : Nat) (serverID : String)
    (trunkSupport : Bool) (portID : String) : List Call × Except GoErr Unit :=
  match env.detach serverID portID with
  | .error e => ([.detachInterface serverID portID], .error e)
  | .ok _ =>
    match trunkTeardown env fuel trunkSupport portID with
    | (trT, .error e) => (.detachInterface serverID portID :: trT, .error e)
    | (trT, .ok _) =>
      match pollDelete (env.portDeleteResp portID) (.deletePort portID)
          ("error deleting the port " ++ portID) 0 fuel with
      | (trP, rP) => (.detachInterface serverID portID :: (trT ++ trP), rP)

/-- The interface loop of `deleteInstance` over the attached interfaces. -/
def deleteInterfacesLoop (env : DeleteEnv) (fuel : Nat) (serverID : String)
    (trunkSupport : Bool) : List String → List Call × Except GoErr Unit
  | [] => ([], .ok ())
  | p :: rest =>
    match deleteOneInterface env fuel serverID trunkSupport p with
    | (tr, .error e) => (tr, .error e)
    | (tr, .ok _) =>
      match deleteInterfacesLoop env fuel serverID trunkSupport rest with
      | (tr2, r) => (tr ++ tr2, r)

/-- `deleteInstance`: list the attached interfaces; with none, delete the
server directly; otherwise query trunk support, tear down every interface
(trunk then port, each polled to completion), and finally delete the server. -/
def deleteInstance (env : DeleteEnv) (fuel : Nat) (serverID : String) :
    List Call × Except GoErr Unit :=
  match env.interfaces serverID with
  | .error e => ([.listInterfaces serverID], .error e)
  | .ok instanceInterfaces =>
    if instanceInterfaces.length < 1 then
      ([.listInterfaces serverID, .deleteServer serverID], env.serverDelete serverID)
    else
      match getTrunkSupport env.extensions with
      | .error e =>
        ([.listInterfaces serverID, .getExtensions],
         .error (wrapErr ("obtaining network extensions: " ++ e.msg)))
      | .ok trunkSupport =>
        match deleteInterfacesLoop env fuel serverID trunkSupport instanceInterfaces with
        | (tr, .error e) => (.listInterfaces serverID :: .getExtensions :: tr, .error e)
        | (tr, .ok _) =>
          (.listInterfaces serverID :: .getExtensions :: (tr ++ [.deleteServer serverID]),
           env.serverDelete serverID)

/-- The disappearance wait of `InstanceDelete`: poll `GetInstance` until an
error classified not-found ends the poll.  Because `GetInstance` maps a
not-found backend answer to a nil instance with nil error and wraps other
errors (losing their classification), the poll continues on nil results. -/
def waitGone (env : DeleteEnv) (serverID : String) : Nat → Nat → Except GoErr Unit
  | _, 0 => .error (wrapErr "timed out waiting for the condition")
  | attempt, fuel + 1 =>
    match GetInstance (env.getServerGoneAt attempt) env.parseIP serverID with
    | .error e =>
      if e.isNotFound then .ok ()
      else .error e
    | .ok _ => waitGone env serverID (attempt + 1) fuel

/-- `Service.InstanceDelete`: a machine with no recorded provider id is a
no-op success; otherwise parse the provider id, run `deleteInstance`, then
poll for the server's disappearance. -/
def InstanceDelete (env : DeleteEnv) (delFuel goneFuel : Nat)
    (providerID : Option String) : List Call × Except GoErr Unit :=
  match providerID with
  | none => ([], .ok ())
  | some pid =>
    match env.parseProviderID pid with
    | .error e => ([], .error e)
    | .ok parsedID =>
      match deleteInstance env delFuel parsedID with
      | (tr, .error e) => (tr, .error e)
      | (tr, .ok _) =>
        match waitGone env parsedID 0 goneFuel with
        | .error e =>
          (tr, .error (wrapErr ("error deleting Openstack instance " ++ parsedID ++ ", " ++ e.msg)))
        | .ok _ => (tr, .ok ())

/-! ### Theorems -/

/-- C8: image resolution by name is a trichotomy: an empty name yields an
empty reference with no error; zero matches yield a not-found error; exactly
one match yields that image's id; more than one match yields an ambiguity
error. -/
theorem getImageID_trichotomy
    (listImages : String → Except GoErr (List Image)) (name : String) :
    getImageID listImages "" = .ok ""
  ∧ (name ≠ "" → listImages name = .ok [] →
      getImageID listImages name =
        .error (wrapErr ("no image with the name " ++ name ++ " could be found")))
  ∧ (∀ img, name ≠ "" → listImages name = .ok [img] →
      getImageID listImages name = .ok img.id)
  ∧ (∀ img1 img2 rest, name ≠ "" → listImages name = .ok (img1 :: img2 :: rest) →
      getImageID listImages name =
        .error (wrapErr ("too many images with the name, " ++ name ++ ", were found"))) := by
  refine ⟨rfl, ?_, ?_, ?_⟩
  · intro h1 h2; simp [getImageID, h1, h2]
  · intro img h1 h2; simp [getImageID, h1, h2]
  · intro img1 img2 rest h1 h2; simp [getImageID, h1, h2]

/-- Witness for C8: a name matching exactly one image resolves to its id. -/
theorem getImageID_trichotomy_witness :
    getImageID (fun _ => .ok [{ id := "img-1", name := "ubuntu" }]) "ubuntu" = .ok "img-1" :=
  (getImageID_trichotomy (fun _ => .ok [{ id := "img-1", name := "ubuntu" }]) "ubuntu").2.2.1
    { id := "img-1", name := "ubuntu" } (by decide) rfl

/-- C9: the root-volume and scheduler-group decorators are each the identity
when their option is absent (nil root volume or size zero; empty group id)
and each add exactly their extension when present (one boot device at boot
index 0 with delete-on-termination true, the override's source and size; a
group scheduler hint), composing independently. -/
theorem create_payload_decorators :
    (∀ opts, applyRootVolume opts none = opts)
  ∧ (∀ opts rv, rv.size = 0 → applyRootVolume opts (some rv) = opts)
  ∧ (∀ opts rv, rv.size ≠ 0 →
      applyRootVolume opts (some rv) = .bootFromVolumeExt opts [rootBlockDevice rv])
  ∧ (∀ opts, applyServerGroupID opts "" = opts)
  ∧ (∀ opts g, g ≠ "" → applyServerGroupID opts g = .schedulerHintsExt opts { group := g })
  ∧ (∀ opts rv g, rv.size ≠ 0 → g ≠ "" →
      applyServerGroupID (applyRootVolume opts (some rv)) g =
        .schedulerHintsExt (.bootFromVolumeExt opts [rootBlockDevice rv]) { group := g }) := by
  refine ⟨fun opts => rfl, ?_, ?_, ?_, ?_, ?_⟩
  · intro opts rv h; simp [applyRootVolume, h]
  · intro opts rv h; simp [applyRootVolume, h]
  · intro opts; simp [applyServerGroupID]
  · intro opts g h; simp [applyServerGroupID, h]
  · intro opts rv g h1 h2; simp [applyRootVolume, applyServerGroupID, h1, h2]

/-- Witness for C9: both decorators applied to a concrete base payload. -/
theorem create_payload_decorators_witness :
    applyServerGroupID
        (applyRootVolume
          (.base { name := "m", imageRef := "i", flavorRef := "f", availabilityZone := "az"
                   networks := [], userData := "", securityGroups := [], tags := []
                   metadata := [], configDrive := none, accessIPv4 := "" })
          (some { sourceType := "image", sourceUUID := "u", size := 10, deviceType := "disk" }))
        "grp" =
      .schedulerHintsExt
        (.bootFromVolumeExt
          (.base { name := "m", imageRef := "i", flavorRef := "f", availabilityZone := "az"
                   networks := [], userData := "", securityGroups := [], tags := []
                   metadata := [], configDrive := none, accessIPv4 := "" })
          [rootBlockDevice { sourceType := "image", sourceUUID := "u", size := 10, deviceType := "disk" }])
        { group := "grp" } :=
  create_payload_decorators.2.2.2.2.2
    (.base { name := "m", imageRef := "i", flavorRef := "f", availabilityZone := "az"
             networks := [], userData := "", securityGroups := [], tags := []
             metadata := [], configDrive := none, accessIPv4 := "" })
    { sourceType := "image", sourceUUID := "u", size := 10, deviceType := "disk" }
    "grp" (by decide) (by decide)

/-- C5: for a non-empty resource id, a backend lookup classified not-found
makes `GetInstance` return an absent instance with no error; any other
backend error is returned wrapped, naming the server id. -/
theorem GetInstance_notFound_absent_else_wrapped
    (getServer : String → Except GoErr Server) (parseIP : String → Bool)
    (resourceID : String) (e : GoErr)
    (hid : resourceID ≠ "") (he : getServer resourceID = .error e) :
    (e.isNotFound = true → GetInstance getServer parseIP resourceID = .ok none)
  ∧ (e.isNotFound = false →
      GetInstance getServer parseIP resourceID =
        .error (wrapErr ("get server \"" ++ resourceID ++ "\" detail failed: " ++ e.msg))) := by
  constructor
  · intro h; simp [GetInstance, hid, he, h]
  · intro h; simp [GetInstance, hid, he, h]

/-- Witness for C5: a not-found lookup on a concrete id yields `ok none`. -/
theorem GetInstance_notFound_absent_witness :
    GetInstance (fun _ => .error { msg := "404", isNotFound := true, isRetryable := false })
      (fun _ => true) "srv-1" = .ok none :=
  (GetInstance_notFound_absent_else_wrapped
    (fun _ => .error { msg := "404", isNotFound := true, isRetryable := false })
    (fun _ => true) "srv-1" { msg := "404", isNotFound := true, isRetryable := false }
    (by decide) rfl).1 rfl

/-- C6: deleting a machine with no recorded provider id is an immediate no-op
success, with no backend call issued. -/
theorem InstanceDelete_nil_providerID_noop (env : DeleteEnv) (delFuel goneFuel : Nat) :
    InstanceDelete env delFuel goneFuel none = ([], .ok ()) := rfl

/-- C7: with zero attached interfaces, `deleteInstance` issues exactly one
backend call after the listing, the server delete, and no extension, trunk or
port calls. -/
theorem deleteInstance_no_interfaces_single_delete
    (env : DeleteEnv) (fuel : Nat) (serverID : String)
    (h : env.interfaces serverID = .ok []) :
    deleteInstance env fuel serverID =
      ([Call.listInterfaces serverID, Call.deleteServer serverID], env.serverDelete serverID) := by
  simp [deleteInstance, h]

/-- Witness for C7: a concrete environment with no attached interfaces. -/
theorem deleteInstance_no_interfaces_witness :
    deleteInstance
      { interfaces := fun _ => .ok [], extensions := .ok ["trunk"]
        detach := fun _ _ => .ok (), trunksOfPort := fun _ => .ok []
        trunkDeleteResp := fun _ _ => .ok (), portDeleteResp := fun _ _ => .ok ()
        serverDelete := fun _ => .ok (), parseProviderID := fun s => .ok s
        getServerGoneAt := fun _ _ => .error { msg := "404", isNotFound := true, isRetryable := false }
        parseIP := fun _ => true } 3 "srv-1" =
      ([Call.listInterfaces "srv-1", Call.deleteServer "srv-1"], .ok ()) :=
  deleteInstance_no_interfaces_single_delete
    { interfaces := fun _ => .ok [], extensions := .ok ["trunk"]
      detach := fun _ _ => .ok (), trunksOfPort := fun _ => .ok []
      trunkDeleteResp := fun _ _ => .ok (), portDeleteResp := fun _ _ => .ok ()
      serverDelete := fun _ => .ok (), parseProviderID := fun s => .ok s
      getServerGoneAt := fun _ _ => .error { msg := "404", isNotFound := true, isRetryable := false }
      parseIP := fun _ => true } 3 "srv-1" rfl

/-- Anchoring a literal name is injective: two names wrapped as `^name$`
agree only when the names agree. -/
theorem anchored_wrap_injective (a b : String)
    (h : "^" ++ a ++ "$" = "^" ++ b ++ "$") : a = b := by
  have h2 : ("^" ++ a ++ "$").data = ("^" ++ b ++ "$").data := by rw [h]
  simp only [String.data_append, List.append_assoc] at h2
  exact String.ext (List.append_cancel_right (List.append_cancel_left h2))

/-- C10: for a non-empty name, `InstanceExists` queries the backend with the
anchored pattern `^name$`, which matches exactly the servers named `name`
(a server whose name merely contains the queried name is not matched), and
zero matching servers yield an absent result with no error. -/
theorem InstanceExists_anchored_whole_match
    (env : ExistsEnv) (name : String)
    (hname : name ≠ "") (hok : env.listFailure = none) :
    (InstanceExists env name).1 = [Call.listServers ("^" ++ name ++ "$")]
  ∧ (∀ s : Server, anchoredPatternMatches ("^" ++ name ++ "$") s.name = true ↔ s.name = name)
  ∧ ((∀ s ∈ env.allServers, s.name ≠ name) → (InstanceExists env name).2 = .ok none) := by
  have hmatch : ∀ s : Server,
      anchoredPatternMatches ("^" ++ name ++ "$") s.name = true ↔ s.name = name := by
    intro s
    unfold anchoredPatternMatches
    rw [beq_iff_eq]
    constructor
    · intro h; exact (anchored_wrap_injective name s.name h).symm
    · intro h; rw [h]
  have hpat : ¬("^" ++ name ++ "$" = "") := by
    intro h
    have h2 := congrArg String.data h
    simp only [String.data_append] at h2
    exact absurd h2 (by simp [String])
  have hfilter : (∀ s ∈ env.allServers, s.name ≠ name) →
      backendListServers env.allServers ("^" ++ name ++ "$") = [] := by
    intro hall
    unfold backendListServers
    rw [if_neg hpat]
    rw [List.filter_eq_nil_iff]
    intro s hs
    simp only [Bool.not_eq_true]
    rw [Bool.eq_false_iff]
    intro hcontra
    exact hall s hs ((hmatch s).mp hcontra)
  refine ⟨?_, hmatch, ?_⟩
  · simp only [InstanceExists, hname, hok, ne_eq, not_false_eq_true, if_true]
    cases hL : List.map (fun s => serverToInstance env.parseIP (some s))
        (backendListServers env.allServers ("^" ++ name ++ "$")) <;> simp [hL]
  · intro hall
    simp [InstanceExists, hname, hok, hfilter hall]

/-- Witness for C10: a backend holding only a server whose name strictly
contains the queried name returns an absent result with no error. -/
theorem InstanceExists_anchored_whole_match_witness :
    (InstanceExists
      { allServers := [{ id := "s1", name := "my-node-1", keyName := "", status := "ACTIVE"
                         accessIPv4 := "", addresses := [] }]
        listFailure := none, parseIP := fun _ => true } "node").2 = .ok none :=
  (InstanceExists_anchored_whole_match
    { allServers := [{ id := "s1", name := "my-node-1", keyName := "", status := "ACTIVE"
                       accessIPv4 := "", addresses := [] }]
      listFailure := none, parseIP := fun _ => true } "node" (by decide) rfl).2.2
    (by intro s hs; simp at hs; rw [hs]; decide)

/-! ### Deduplication lemmas (C4) -/

/-- `dedupGo` computes the first-occurrence deduplication of the elements not
yet seen, appended to the output accumulator. -/
theorem dedupGo_spec (l : List String) : ∀ seen unique,
    dedupGo l seen unique =
      unique ++ firstOccurrenceDedup (l.filter (fun x => !seen.contains x)) := by
  induction l with
  | nil => intro seen unique; simp [dedupGo, firstOccurrenceDedup]
  | cons s rest ih =>
    intro seen unique
    by_cases h : seen.contains s = true
    · rw [List.filter_cons_of_neg (by simpa using h)]
      simp only [dedupGo, h, if_true]
      exact ih seen unique
    · have hf : seen.contains s = false := by simpa using h
      rw [List.filter_cons_of_pos (by simpa using h)]
      simp only [dedupGo, hf, Bool.false_eq_true, if_false]
      rw [ih (s :: seen) (unique ++ [s])]
      show _ = unique ++ firstOccurrenceDedup (s :: _)
      rw [firstOccurrenceDedup]
      rw [List.append_assoc, List.singleton_append]
      congr 2
      rw [List.filter_filter]
      congr 1
      apply List.filter_congr
      intro a _
      by_cases has : a = s
      · subst has; simp [List.contains_cons]
      · simp [has, List.contains_cons]

/-- Every element of the first-occurrence deduplication occurs in the input. -/
theorem mem_firstOccurrenceDedup (l : List String) (x : String)
    (h : x ∈ firstOccurrenceDedup l) : x ∈ l := by
  induction l using firstOccurrenceDedup.induct with
  | case1 => simp [firstOccurrenceDedup] at h
  | case2 s rest ih =>
    rw [firstOccurrenceDedup] at h
    rcases List.mem_cons.mp h with h1 | h2
    · simp [h1]
    · exact List.mem_cons_of_mem _ (List.mem_of_mem_filter (ih h2))

/-- The first-occurrence deduplication has no duplicates. -/
theorem nodup_firstOccurrenceDedup (l : List String) : (firstOccurrenceDedup l).Nodup := by
  induction l using firstOccurrenceDedup.induct with
  | case1 => simp [firstOccurrenceDedup]
  | case2 s rest ih =>
    rw [firstOccurrenceDedup]
    refine List.nodup_cons.mpr ⟨?_, ih⟩
    intro hmem
    have := List.of_mem_filter (mem_firstOccurrenceDedup _ _ hmem)
    simp at this

/-- `deduplicate` computes exactly the order-preserving first-occurrence
deduplication. -/
theorem deduplicate_eq_firstOccurrenceDedup (l : List String) :
    deduplicate l = firstOccurrenceDedup l := by
  unfold deduplicate
  rw [dedupGo_spec]
  simp

/-- The property of a trace call that its tag payloads, if any, are the given
instance tag list: trunk-tagging calls carry exactly those tags, and server
create payloads carry them as the base tag list. -/
abbrev TagsFaithful (itags : List String) (c : Call) : Prop :=
  (∀ tid tags, c = .replaceTrunkTags tid tags → tags = itags) ∧
  (∀ opts, c = .createServer opts → opts.baseTags = itags)

/-- The boot-from-volume decorator does not change the base tag list. -/
theorem baseTags_applyRootVolume (opts : CreateOptsBuilder) (rv : Option RootVolume) :
    (applyRootVolume opts rv).baseTags = opts.baseTags := by
  unfold applyRootVolume
  cases rv with
  | none => rfl
  | some v =>
    by_cases h : v.size ≠ 0
    · simp [h, CreateOptsBuilder.baseTags]
    · simp [h]

/-- The scheduler-group decorator does not change the base tag list. -/
theorem baseTags_applyServerGroupID (opts : CreateOptsBuilder) (g : String) :
    (applyServerGroupID opts g).baseTags = opts.baseTags := by
  unfold applyServerGroupID
  by_cases h : g ≠ ""
  · simp [h, CreateOptsBuilder.baseTags]
  · simp [h]

/-- Every call in the trunk block's trace is tags-faithful. -/
theorem trunkPart_tags (env : Env) (i : InstanceIn) (portID : String) :
    ∀ c ∈ (trunkPart env i portID).1, TagsFaithful i.tags c := by
  intro c hc
  unfold trunkPart at hc
  cases h1 : env.listTrunks i.name portID with
  | error e =>
    rw [h1] at hc; simp at hc; subst hc
    exact ⟨(fun tid tags h => by cases h), (fun opts h => by cases h)⟩
  | ok tl =>
    rw [h1] at hc
    cases tl with
    | nil =>
      dsimp only at hc
      cases h2 : env.createTrunk i.name portID with
      | error e =>
        rw [h2] at hc; simp at hc
        rcases hc with hc | hc <;> subst hc <;>
          exact ⟨(fun tid tags h => by cases h), (fun opts h => by cases h)⟩
      | ok t =>
        rw [h2] at hc
        dsimp only at hc
        cases h3 : env.replaceTrunkTags t i.tags with
        | error e =>
          rw [h3] at hc; simp at hc
          rcases hc with hc | hc | hc <;> subst hc <;>
            exact ⟨(fun tid tags h => by cases h <;> rfl), (fun opts h => by cases h)⟩
        | ok u =>
          rw [h3] at hc; simp at hc
          rcases hc with hc | hc | hc <;> subst hc <;>
            exact ⟨(fun tid tags h => by cases h <;> rfl), (fun opts h => by cases h)⟩
    | cons t rest =>
      dsimp only at hc
      cases h3 : env.replaceTrunkTags t i.tags with
      | error e =>
        rw [h3] at hc; simp at hc
        rcases hc with hc | hc <;> subst hc <;>
          exact ⟨(fun tid tags h => by cases h <;> rfl), (fun opts h => by cases h)⟩
      | ok u =>
        rw [h3] at hc; simp at hc
        rcases hc with hc | hc <;> subst hc <;>
          exact ⟨(fun tid tags h => by cases h <;> rfl), (fun opts h => by cases h)⟩

/-- The trace of the port-creation helper is a single port-create call with
the assembled options. -/
theorem createPort_trace (env : Env) (clusterName name : String) (n : Network)
    (sgs : List String) :
    (createPort env clusterName name n sgs).1 =
      [Call.createPort (portCreateOptsFor clusterName name n sgs)] := by
  unfold createPort
  cases h : env.createPort (portCreateOptsFor clusterName name n sgs) <;> rfl

/-- Every call in one port-loop iteration's trace is tags-faithful. -/
theorem ensureNetworkStep_tags (env : Env) (clusterName : String) (i : InstanceIn)
    (n : Network) :
    ∀ c ∈ (ensureNetworkStep env clusterName i n).1, TagsFaithful i.tags c := by
  intro c hc
  have hlp : TagsFaithful i.tags (Call.listPorts i.name n.id) :=
    ⟨(fun tid tags h => by cases h), (fun opts h => by cases h)⟩
  unfold ensureNetworkStep at hc
  cases h1 : env.listPorts i.name n.id with
  | error e =>
    rw [h1] at hc; simp at hc; subst hc; exact hlp
  | ok portList =>
    rw [h1] at hc
    cases portList with
    | nil =>
      dsimp only at hc
      cases h2 : createPort env clusterName i.name n i.securityGroups with
      | mk trP rP =>
        rw [h2] at hc
        have hcp2 : ∀ c2 ∈ trP, TagsFaithful i.tags c2 := by
          intro c2 hc2
          have htr := createPort_trace env clusterName i.name n i.securityGroups
          rw [h2] at htr
          simp only at htr
          rw [htr] at hc2
          simp at hc2; subst hc2
          exact ⟨(fun tid tags h => by cases h), (fun opts2 h => by cases h)⟩
        cases rP with
        | error e =>
          dsimp only at hc
          rcases List.mem_cons.mp hc with h | h
          · subst h; exact hlp
          · exact hcp2 c h
        | ok port =>
          dsimp only at hc
          by_cases ht : i.trunk
          · rw [if_pos ht] at hc
            cases h3 : trunkPart env i port.id with
            | mk trT rT =>
              rw [h3] at hc
              have htp : ∀ c2 ∈ trT, TagsFaithful i.tags c2 := by
                intro c2 hc2
                exact trunkPart_tags env i port.id c2 (by rw [h3]; exact hc2)
              cases rT with
              | error e =>
                dsimp only at hc
                rcases List.mem_cons.mp hc with h | h
                · subst h; exact hlp
                · rcases List.mem_append.mp h with h | h
                  · exact hcp2 c h
                  · exact htp c h
              | ok u =>
                dsimp only at hc
                rcases List.mem_cons.mp hc with h | h
                · subst h; exact hlp
                · rcases List.mem_append.mp h with h | h
                  · exact hcp2 c h
                  · exact htp c h
          · rw [if_neg ht] at hc
            rcases List.mem_cons.mp hc with h | h
            · subst h; exact hlp
            · exact hcp2 c h
    | cons port rest =>
      dsimp only at hc
      by_cases ht : i.trunk
      · rw [if_pos ht] at hc
        cases h3 : trunkPart env i port.id with
        | mk trT rT =>
          rw [h3] at hc
          have htp : ∀ c2 ∈ trT, TagsFaithful i.tags c2 := by
            intro c2 hc2
            exact trunkPart_tags env i port.id c2 (by rw [h3]; exact hc2)
          cases rT with
          | error e =>
            dsimp only at hc
            rcases List.mem_cons.mp hc with h | h
            · subst h; exact hlp
            · rcases List.mem_append.mp h with h | h
              · simp at h
              · exact htp c h
          | ok u =>
            dsimp only at hc
            rcases List.mem_cons.mp hc with h | h
            · subst h; exact hlp
            · rcases List.mem_append.mp h with h | h
              · simp at h
              · exact htp c h
      · rw [if_neg ht] at hc
        rcases List.mem_cons.mp hc with h | h
        · subst h; exact hlp
        · simp at h

/-- Every call in the port loop's trace is tags-faithful. -/
theorem portLoop_tags (env : Env) (clusterName : String) (i : InstanceIn) :
    ∀ (nets : List Network) (st : NetState),
      ∀ c ∈ (portLoop env clusterName i nets st).1, TagsFaithful i.tags c := by
  intro nets
  induction nets with
  | nil => intro st c hc; simp [portLoop] at hc
  | cons n rest ih =>
    intro st c hc
    unfold portLoop at hc
    by_cases hid : n.id = ""
    · rw [if_pos hid] at hc; simp at hc
    · rw [if_neg hid] at hc
      cases h1 : ensureNetworkStep env clusterName i n with
      | mk tr r =>
        rw [h1] at hc
        have hstep : ∀ c2 ∈ tr, TagsFaithful i.tags c2 := by
          intro c2 hc2
          exact ensureNetworkStep_tags env clusterName i n c2 (by rw [h1]; exact hc2)
        cases r with
        | error e => dsimp only at hc; exact hstep c hc
        | ok port =>
          dsimp only at hc
          cases h2 : portLoop env clusterName i rest
              { accessIPv4 := updateAccessIP i.subnet port.fixedIPs st.accessIPv4
                portsList := st.portsList ++ [port.id] } with
          | mk tr2 r2 =>
            rw [h2] at hc
            dsimp only at hc
            rcases List.mem_append.mp hc with h | h
            · exact hstep c h
            · exact ih _ c (by rw [h2]; exact h)

/-- Every call in the compensating cleanup's trace is tags-faithful (the
cleanup only issues port get and delete calls). -/
theorem deletePorts_tags (env : Env) (itags : List String) :
    ∀ (ps : List String), ∀ c ∈ (deletePorts env ps).1, TagsFaithful itags c := by
  intro ps
  induction ps with
  | nil => intro c hc; simp [deletePorts] at hc
  | cons p rest ih =>
    intro c hc
    have hget : TagsFaithful itags (Call.getPort p) :=
      ⟨(fun tid tags h => by cases h), (fun opts h => by cases h)⟩
    have hdel : TagsFaithful itags (Call.deletePort p) :=
      ⟨(fun tid tags h => by cases h), (fun opts h => by cases h)⟩
    unfold deletePorts at hc
    cases h1 : env.getPort p with
    | error e =>
      rw [h1] at hc
      dsimp only at hc
      by_cases hnf : e.isNotFound = true
      · rw [if_pos hnf] at hc; simp at hc; subst hc; exact hget
      · rw [if_neg hnf] at hc
        cases h2 : env.deletePort p with
        | error e2 =>
          rw [h2] at hc; dsimp only at hc; simp at hc
          rcases hc with hc | hc <;> subst hc
          · exact hget
          · exact hdel
        | ok u =>
          rw [h2] at hc; dsimp only at hc
          cases h3 : deletePorts env rest with
          | mk tr r =>
            rw [h3] at hc; dsimp only at hc
            rcases List.mem_cons.mp hc with h | h
            · subst h; exact hget
            · rcases List.mem_cons.mp h with h | h
              · subst h; exact hdel
              · exact ih c (by rw [h3]; exact h)
    | ok port =>
      rw [h1] at hc
      dsimp only at hc
      cases h2 : env.deletePort p with
      | error e2 =>
        rw [h2] at hc; dsimp only at hc; simp at hc
        rcases hc with hc | hc <;> subst hc
        · exact hget
        · exact hdel
      | ok u =>
        rw [h2] at hc; dsimp only at hc
        cases h3 : deletePorts env rest with
        | mk tr r =>
          rw [h3] at hc; dsimp only at hc
          rcases List.mem_cons.mp hc with h | h
          · subst h; exact hget
          · rcases List.mem_cons.mp h with h | h
            · subst h; exact hdel
            · exact ih c (by rw [h3]; exact h)

/-- The final create payload carries the instance tag list as its base tags. -/
theorem baseTags_finalCreateOpts (i : InstanceIn) (imageID flavorID : String) (st : NetState) :
    (finalCreateOpts i imageID flavorID st).baseTags = i.tags := by
  unfold finalCreateOpts
  rw [CreateOptsBuilder.baseTags, baseTags_applyServerGroupID, baseTags_applyRootVolume]
  rfl

/-- Every call in `createInstance`'s trace is tags-faithful. -/
theorem createInstance_tags (env : Env) (fuel : Nat) (clusterName : String) (i : InstanceIn) :
    ∀ c ∈ (createInstance env fuel clusterName i).1, TagsFaithful i.tags c := by
  intro c hc
  have him : ∀ c2 ∈ (if i.image = "" then ([] : List Call) else [Call.listImages i.image]),
      TagsFaithful i.tags c2 := by
    intro c2 hc2
    by_cases h : i.image = ""
    · rw [if_pos h] at hc2; simp at hc2
    · rw [if_neg h] at hc2; simp at hc2; subst hc2
      exact ⟨(fun tid tags h => by cases h), (fun opts h => by cases h)⟩
  unfold createInstance at hc
  cases h1 : getImageID env.listImagesByName i.image with
  | error e =>
    rw [h1] at hc
    dsimp only at hc
    exact him c hc
  | ok imageID =>
    rw [h1] at hc
    dsimp only at hc
    cases h2 : portLoop env clusterName i i.networks { accessIPv4 := "", portsList := [] } with
    | mk tr1 r1 =>
      rw [h2] at hc
      have hloop : ∀ c2 ∈ tr1, TagsFaithful i.tags c2 := by
        intro c2 hc2
        exact portLoop_tags env clusterName i i.networks _ c2 (by rw [h2]; exact hc2)
      cases r1 with
      | error e =>
        dsimp only at hc
        rcases List.mem_append.mp hc with h | h
        · exact him c h
        · exact hloop c h
      | ok st =>
        dsimp only at hc
        by_cases hsub : i.subnet ≠ "" ∧ st.accessIPv4 = ""
        · rw [if_pos hsub] at hc
          cases h3 : deletePorts env st.portsList with
          | mk tr2 r2 =>
            rw [h3] at hc
            have hdel : ∀ c2 ∈ tr2, TagsFaithful i.tags c2 := by
              intro c2 hc2
              exact deletePorts_tags env i.tags st.portsList c2 (by rw [h3]; exact hc2)
            cases r2 with
            | error e =>
              dsimp only at hc
              rcases List.mem_append.mp hc with h | h
              · rcases List.mem_append.mp h with h | h
                · exact him c h
                · exact hloop c h
              · exact hdel c h
            | ok u =>
              dsimp only at hc
              rcases List.mem_append.mp hc with h | h
              · rcases List.mem_append.mp h with h | h
                · exact him c h
                · exact hloop c h
              · exact hdel c h
        · rw [if_neg hsub] at hc
          cases h4 : env.flavorID i.flavor with
          | error e =>
            rw [h4] at hc
            dsimp only at hc
            rcases List.mem_append.mp hc with h | h
            · exact him c h
            · exact hloop c h
          | ok flavorID =>
            rw [h4] at hc
            dsimp only at hc
            have hsrv : TagsFaithful i.tags
                (Call.createServer (finalCreateOpts i imageID flavorID st)) := by
              refine ⟨(fun tid tags h => by cases h), (fun opts h => ?_)⟩
              cases h
              exact baseTags_finalCreateOpts i imageID flavorID st
            cases h5 : env.createServer (finalCreateOpts i imageID flavorID st) with
            | error e =>
              rw [h5] at hc
              dsimp only at hc
              cases h6 : deletePorts env st.portsList with
              | mk tr2 r2 =>
                rw [h6] at hc
                have hdel : ∀ c2 ∈ tr2, TagsFaithful i.tags c2 := by
                  intro c2 hc2
                  exact deletePorts_tags env i.tags st.portsList c2 (by rw [h6]; exact hc2)
                cases r2 with
                | error e2 =>
                  dsimp only at hc
                  rcases List.mem_append.mp hc with h | h
                  · rcases List.mem_append.mp h with h | h
                    · rcases List.mem_append.mp h with h | h
                      · exact him c h
                      · exact hloop c h
                    · simp at h; subst h; exact hsrv
                  · exact hdel c h
                | ok u =>
                  dsimp only at hc
                  rcases List.mem_append.mp hc with h | h
                  · rcases List.mem_append.mp h with h | h
                    · rcases List.mem_append.mp h with h | h
                      · exact him c h
                      · exact hloop c h
                    · simp at h; subst h; exact hsrv
                  · exact hdel c h
            | ok serverID =>
              rw [h5] at hc
              dsimp only at hc
              cases h7 : waitActive env serverID 0 fuel with
              | error e =>
                rw [h7] at hc
                dsimp only at hc
                rcases List.mem_append.mp hc with h | h
                · rcases List.mem_append.mp h with h | h
                  · exact him c h
                  · exact hloop c h
                · simp at h; subst h; exact hsrv
              | ok inst =>
                rw [h7] at hc
                dsimp only at hc
                rcases List.mem_append.mp hc with h | h
                · rcases List.mem_append.mp h with h | h
                  · exact him c h
                  · exact hloop c h
                · simp at h; subst h; exact hsrv

/-- C4: the tag list used for the instance create payload and for every trunk
tagging call is the order-preserving deduplication of the concatenated
machine and cluster tags: first occurrences kept in order, later occurrences
removed, hence no duplicates (for example ["a","b","a"] becomes ["a","b"]). -/
theorem tags_deduplicated_before_use :
    (∀ l, deduplicate l = firstOccurrenceDedup l)
  ∧ (∀ l, (deduplicate l).Nodup)
  ∧ deduplicate ["a", "b", "a"] = ["a", "b"]
  ∧ (∀ env fuel cluster machine m clusterName userData isControlPlane,
      ∀ c ∈ (InstanceCreate env fuel cluster machine (some m) clusterName userData
          isControlPlane).1,
        (∀ tid tags, c = .replaceTrunkTags tid tags →
          tags = deduplicate (m.tags ++ cluster.tags)) ∧
        (∀ opts, c = .createServer opts →
          opts.baseTags = deduplicate (m.tags ++ cluster.tags))) := by
  refine ⟨deduplicate_eq_firstOccurrenceDedup, ?_, by decide, ?_⟩
  · intro l
    rw [deduplicate_eq_firstOccurrenceDedup]
    exact nodup_firstOccurrenceDedup l
  · intro env fuel cluster machine m clusterName userData isControlPlane c hc
    unfold InstanceCreate at hc
    dsimp only at hc
    cases hfd : machine.failureDomain with
    | none => rw [hfd] at hc; simp at hc
    | some fd =>
      rw [hfd] at hc
      dsimp only at hc
      cases htc : trunkCheck env m.trunk with
      | error e => rw [htc] at hc; simp at hc
      | ok trunkFlag =>
        rw [htc] at hc
        dsimp only at hc
        cases hsg : getSecurityGroups env m.securityGroups with
        | error e => rw [hsg] at hc; simp at hc
        | ok securityGroups0 =>
          rw [hsg] at hc
          dsimp only at hc
          cases hnets : serverNetworksFor env cluster m with
          | error e => rw [hnets] at hc; simp at hc
          | ok nets =>
            rw [hnets] at hc
            dsimp only at hc
            exact createInstance_tags env fuel clusterName _ c hc

/-- Witness for C4: a concrete trunked creation whose trunk-tagging call
carries exactly the deduplicated tags. -/
theorem tags_deduplicated_before_use_witness :
    ["a", "b", "c"] = deduplicate (["a", "b", "a"] ++ ["b", "c"]) :=
  (tags_deduplicated_before_use.2.2.2
    { projectID := "p", extensions := .ok ["trunk"]
      listSecurityGroups := fun _ => .ok ["sg"]
      resolveNetworks := fun _ => .ok ["n1"]
      subnetsByFilter := fun _ => .ok []
      listImagesByName := fun _ => .ok []
      listPorts := fun _ _ => .ok []
      createPort := fun o => .ok { id := "p1", networkID := o.networkID, fixedIPs := [] }
      getPort := fun _ => .ok { id := "p1", networkID := "n1", fixedIPs := [] }
      deletePort := fun _ => .ok ()
      listTrunks := fun _ _ => .ok []
      createTrunk := fun _ _ => .ok "t1"
      replaceTrunkTags := fun _ _ => .ok ()
      flavorID := fun _ => .ok "f1"
      createServer := fun _ => .ok "srv"
      getServerAt := fun _ sid => .ok { id := sid, name := "m", keyName := "", status := "ACTIVE"
                                        accessIPv4 := "", addresses := [] }
      parseIP := fun _ => false }
    1
    { tags := ["b", "c"], managedSecurityGroups := false
      controlPlaneSecurityGroupID := "cp", workerSecurityGroupID := "wk"
      networkID := "n1", networkSubnetID := "s1" }
    { failureDomain := some "az" }
    { name := "m", image := "", flavor := "fl", sshKeyName := "", serverMetadata := []
      configDrive := none, rootVolume := none, subnet := "", trunk := true
      tags := ["a", "b", "a"], securityGroups := [], networks := [] }
    "cl" "ud" false
    (.replaceTrunkTags "t1" ["a", "b", "c"]) (by decide)).1 "t1" ["a", "b", "c"] rfl

/-- A network param whose filter the backend resolves to zero networks makes
the `getServerNetworks` loop fail, from any accumulator. -/
theorem getServerNetworksLoop_zero_match (env : Env) :
    ∀ (params : List NetworkParam) (nets : List Network) (p : NetworkParam),
      p ∈ params →
      env.resolveNetworks { filter := p.filter, id := p.uuid } = .ok [] →
      ∃ e, getServerNetworksLoop env params nets = .error e := by
  intro params
  induction params with
  | nil => intro nets p hp; simp at hp
  | cons q rest ih =>
    intro nets p hp hzero
    unfold getServerNetworksLoop
    rcases List.mem_cons.mp hp with h | h
    · subst h
      refine ⟨wrapErr "no networks could be found with the filters provided", ?_⟩
      unfold getNetworkIDsByFilter
      rw [hzero]
    · cases h1 : getNetworkIDsByFilter env.resolveNetworks { filter := q.filter, id := q.uuid } with
      | error e => exact ⟨e, rfl⟩
      | ok ids =>
        cases h2 : idsLoop env q ids nets with
        | error e => exact ⟨e, by dsimp only; rw [h2]⟩
        | ok nets2 =>
          obtain ⟨e, he⟩ := ih nets2 p h hzero
          exact ⟨e, by dsimp only; rw [h2]; exact he⟩

/-- C2: a network attachment whose filter matches zero backend networks makes
`getServerNetworks` fail, and instance creation returns an error rather than
proceeding with the attachment dropped. -/
theorem zero_match_attachment_fails_creation
    (env : Env) (fuel : Nat) (cluster : ClusterIn) (machine : MachineIn)
    (m : OSMachineIn) (clusterName userData : String) (isControlPlane : Bool)
    (p : NetworkParam)
    (hp : p ∈ m.networks)
    (hzero : env.resolveNetworks { filter := p.filter, id := p.uuid } = .ok []) :
    (∃ e, getServerNetworks env m.networks = .error e)
  ∧ (∃ e, (InstanceCreate env fuel cluster machine (some m) clusterName userData
      isControlPlane).2 = .error e) := by
  have h1 : ∃ e, getServerNetworks env m.networks = .error e := by
    unfold getServerNetworks
    exact getServerNetworksLoop_zero_match env m.networks [] p hp hzero
  obtain ⟨e, he⟩ := h1
  have hsn : serverNetworksFor env cluster m = .error e := by
    unfold serverNetworksFor
    rw [if_pos (List.length_pos.mpr (List.ne_nil_of_mem hp))]
    exact he
  refine ⟨⟨e, he⟩, ?_⟩
  unfold InstanceCreate
  dsimp only
  cases hfd : machine.failureDomain with
  | none => exact ⟨_, rfl⟩
  | some fd =>
    dsimp only
    cases htc : trunkCheck env m.trunk with
    | error e2 => exact ⟨e2, rfl⟩
    | ok trunkFlag =>
      dsimp only
      cases hsg : getSecurityGroups env m.securityGroups with
      | error e2 => exact ⟨e2, rfl⟩
      | ok sgs0 =>
        dsimp only
        exact ⟨e, by rw [hsn]⟩

/-- Witness for C2: one attachment, backend resolves its filter to nothing. -/
theorem zero_match_attachment_fails_creation_witness :
    (∃ e, getServerNetworks
      { projectID := "p", extensions := .ok []
        listSecurityGroups := fun _ => .ok ["sg"]
        resolveNetworks := fun _ => .ok []
        subnetsByFilter := fun _ => .ok []
        listImagesByName := fun _ => .ok []
        listPorts := fun _ _ => .ok []
        createPort := fun o => .ok { id := "p1", networkID := o.networkID, fixedIPs := [] }
        getPort := fun _ => .ok { id := "p1", networkID := "n1", fixedIPs := [] }
        deletePort := fun _ => .ok ()
        listTrunks := fun _ _ => .ok []
        createTrunk := fun _ _ => .ok "t1"
        replaceTrunkTags := fun _ _ => .ok ()
        flavorID := fun _ => .ok "f1"
        createServer := fun _ => .ok "srv"
        getServerAt := fun _ sid => .ok { id := sid, name := "m", keyName := ""
                                          status := "ACTIVE", accessIPv4 := "", addresses := [] }
        parseIP := fun _ => false }
      [{ uuid := "", filter := "name=missing", subnets := none }] = .error e)
  ∧ (∃ e, (InstanceCreate
      { projectID := "p", extensions := .ok []
        listSecurityGroups := fun _ => .ok ["sg"]
        resolveNetworks := fun _ => .ok []
        subnetsByFilter := fun _ => .ok []
        listImagesByName := fun _ => .ok []
        listPorts := fun _ _ => .ok []
        createPort := fun o => .ok { id := "p1", networkID := o.networkID, fixedIPs := [] }
        getPort := fun _ => .ok { id := "p1", networkID := "n1", fixedIPs := [] }
        deletePort := fun _ => .ok ()
        listTrunks := fun _ _ => .ok []
        createTrunk := fun _ _ => .ok "t1"
        replaceTrunkTags := fun _ _ => .ok ()
        flavorID := fun _ => .ok "f1"
        createServer := fun _ => .ok "srv"
        getServerAt := fun _ sid => .ok { id := sid, name := "m", keyName := ""
                                          status := "ACTIVE", accessIPv4 := "", addresses := [] }
        parseIP := fun _ => false }
      1
      { tags := [], managedSecurityGroups := false
        controlPlaneSecurityGroupID := "cp", workerSecurityGroupID := "wk"
        networkID := "n1", networkSubnetID := "s1" }
      { failureDomain := some "az" }
      (some { name := "m", image := "", flavor := "fl", sshKeyName := ""
              serverMetadata := [], configDrive := none, rootVolume := none, subnet := ""
              trunk := false, tags := [], securityGroups := []
              networks := [{ uuid := "", filter := "name=missing", subnets := none }] })
      "cl" "ud" false).2 = .error e) :=
  zero_match_attachment_fails_creation
    { projectID := "p", extensions := .ok []
      listSecurityGroups := fun _ => .ok ["sg"]
      resolveNetworks := fun _ => .ok []
      subnetsByFilter := fun _ => .ok []
      listImagesByName := fun _ => .ok []
      listPorts := fun _ _ => .ok []
      createPort := fun o => .ok { id := "p1", networkID := o.networkID, fixedIPs := [] }
      getPort := fun _ => .ok { id := "p1", networkID := "n1", fixedIPs := [] }
      deletePort := fun _ => .ok ()
      listTrunks := fun _ _ => .ok []
      createTrunk := fun _ _ => .ok "t1"
      replaceTrunkTags := fun _ _ => .ok ()
      flavorID := fun _ => .ok "f1"
      createServer := fun _ => .ok "srv"
      getServerAt := fun _ sid => .ok { id := sid, name := "m", keyName := ""
                                        status := "ACTIVE", accessIPv4 := "", addresses := [] }
      parseIP := fun _ => false }
    1
    { tags := [], managedSecurityGroups := false
      controlPlaneSecurityGroupID := "cp", workerSecurityGroupID := "wk"
      networkID := "n1", networkSubnetID := "s1" }
    { failureDomain := some "az" }
    { name := "m", image := "", flavor := "fl", sshKeyName := ""
      serverMetadata := [], configDrive := none, rootVolume := none, subnet := ""
      trunk := false, tags := [], securityGroups := []
      networks := [{ uuid := "", filter := "name=missing", subnets := none }] }
    "cl" "ud" false
    { uuid := "", filter := "name=missing", subnets := none }
    (by decide) rfl

/-! ### Teardown ordering lemmas (C3) -/

/-- Every call issued by a polled deletion is the poll's single call, and a
successful poll has issued it at least once. -/
theorem pollDelete_trace (respond : Nat → Except GoErr Unit) (call : Call) (errMsg : String) :
    ∀ (fuel attempt : Nat),
      (∀ c ∈ (pollDelete respond call errMsg attempt fuel).1, c = call) ∧
      ((pollDelete respond call errMsg attempt fuel).2 = .ok () →
        (pollDelete respond call errMsg attempt fuel).1 ≠ []) := by
  intro fuel
  induction fuel with
  | zero =>
    intro attempt
    constructor
    · intro c hc; simp [pollDelete] at hc
    · intro h; simp [pollDelete, wrapErr] at h
  | succ n ih =>
    intro attempt
    constructor
    · intro c hc
      unfold pollDelete at hc
      cases hr : respond attempt with
      | ok u => rw [hr] at hc; simp at hc; exact hc
      | error e =>
        rw [hr] at hc
        dsimp only at hc
        by_cases hre : e.isRetryable = true
        · rw [if_pos hre] at hc
          cases hp : pollDelete respond call errMsg (attempt + 1) n with
          | mk tr r =>
            rw [hp] at hc
            dsimp only at hc
            rcases List.mem_cons.mp hc with h | h
            · exact h
            · exact (ih (attempt + 1)).1 c (by rw [hp]; exact h)
        · rw [if_neg hre] at hc; simp at hc; exact hc
    · intro h
      unfold pollDelete
      cases hr : respond attempt with
      | ok u => simp
      | error e =>
        dsimp only
        by_cases hre : e.isRetryable = true
        · rw [if_pos hre]
          cases hp : pollDelete respond call errMsg (attempt + 1) n with
          | mk tr r => simp
        · rw [if_neg hre]; simp

/-- The calls of the trunk block of teardown are the trunk listing and trunk
deletions only. -/
theorem trunkTeardown_calls (env : DeleteEnv) (fuel : Nat) (ts : Bool) (portID : String) :
    ∀ c ∈ (trunkTeardown env fuel ts portID).1,
      c = .listTrunksByPort portID ∨ ∃ t, c = .deleteTrunk t := by
  intro c hc
  unfold trunkTeardown at hc
  by_cases hts : ts = true
  · rw [if_pos hts] at hc
    cases h1 : env.trunksOfPort portID with
    | error e => rw [h1] at hc; simp at hc; subst hc; exact Or.inl rfl
    | ok tl =>
      rw [h1] at hc
      match tl with
      | [] => simp at hc; subst hc; exact Or.inl rfl
      | [t] =>
        dsimp only at hc
        cases hp : pollDelete (env.trunkDeleteResp t) (.deleteTrunk t)
            ("error deleting the trunk " ++ t) 0 fuel with
        | mk tr r =>
          rw [hp] at hc
          dsimp only at hc
          rcases List.mem_cons.mp hc with h | h
          · subst h; exact Or.inl rfl
          · have := (pollDelete_trace (env.trunkDeleteResp t) (.deleteTrunk t)
              ("error deleting the trunk " ++ t) fuel 0).1 c (by rw [hp]; exact h)
            exact Or.inr ⟨t, this⟩
      | t1 :: t2 :: rest => simp at hc; subst hc; exact Or.inl rfl
  · rw [if_neg hts] at hc; simp at hc

/-- A successful trunk block for a port with exactly one bound trunk is the
trunk listing followed by a non-empty run of deletions of that trunk. -/
theorem trunkTeardown_single_shape (env : DeleteEnv) (fuel : Nat) (portID t : String)
    (htr : env.trunksOfPort portID = .ok [t])
    (hok : (trunkTeardown env fuel true portID).2 = .ok ()) :
    ∃ tks, (trunkTeardown env fuel true portID).1 = .listTrunksByPort portID :: tks
      ∧ tks ≠ [] ∧ (∀ c ∈ tks, c = .deleteTrunk t) := by
  have hpoll := pollDelete_trace (env.trunkDeleteResp t) (.deleteTrunk t)
    ("error deleting the trunk " ++ t) fuel 0
  unfold trunkTeardown at hok ⊢
  rw [if_pos rfl] at hok ⊢
  rw [htr] at hok ⊢
  dsimp only at hok ⊢
  cases hp : pollDelete (env.trunkDeleteResp t) (.deleteTrunk t)
      ("error deleting the trunk " ++ t) 0 fuel with
  | mk tr r =>
    refine ⟨tr, rfl, ?_, ?_⟩
    · have hx := hpoll.2 hok
      rw [hp] at hx
      exact hx
    · intro c hc
      exact hpoll.1 c (by rw [hp]; exact hc)

/-- A successful teardown of one interface whose port has exactly one bound
trunk, under trunk support, is: detach, trunk listing, a non-empty run of
trunk deletions, then a non-empty run of port deletions. -/
theorem deleteOneInterface_success_shape (env : DeleteEnv) (fuel : Nat)
    (serverID portID t : String)
    (htr : env.trunksOfPort portID = .ok [t])
    (tr : List Call)
    (heq : deleteOneInterface env fuel serverID true portID = (tr, .ok ())) :
    ∃ tks pks,
      tr = .detachInterface serverID portID :: .listTrunksByPort portID :: (tks ++ pks)
      ∧ tks ≠ [] ∧ (∀ c ∈ tks, c = .deleteTrunk t)
      ∧ pks ≠ [] ∧ (∀ c ∈ pks, c = .deletePort portID) := by
  unfold deleteOneInterface at heq
  cases hd : env.detach serverID portID with
  | error e => rw [hd] at heq; simp at heq
  | ok u =>
    rw [hd] at heq
    dsimp only at heq
    cases h2 : trunkTeardown env fuel true portID with
    | mk trT rT =>
      rw [h2] at heq
      cases rT with
      | error e => simp at heq
      | ok v =>
        dsimp only at heq
        cases hp : pollDelete (env.portDeleteResp portID) (.deletePort portID)
            ("error deleting the port " ++ portID) 0 fuel with
        | mk trP rP =>
          rw [hp] at heq
          dsimp only at heq
          have htrP := pollDelete_trace (env.portDeleteResp portID) (.deletePort portID)
            ("error deleting the port " ++ portID) fuel 0
          rw [Prod.mk.injEq] at heq
          obtain ⟨htrEq, hresEq⟩ := heq
          cases v
          obtain ⟨tks, hT1, hT2, hT3⟩ :=
            trunkTeardown_single_shape env fuel portID t htr (by rw [h2])
          have htrT : trT = .listTrunksByPort portID :: tks := by
            have hx := hT1
            rw [h2] at hx
            exact hx
          have hpne : trP ≠ [] := by
            have hx := htrP.2 (by rw [hp]; exact hresEq)
            rw [hp] at hx
            exact hx
          refine ⟨tks, trP, ?_, hT2, hT3, hpne, ?_⟩
          · rw [← htrEq, htrT]
            simp
          · intro c hc
            exact htrP.1 c (by rw [hp]; exact hc)

/-- The teardown of one interface never issues a server delete. -/
theorem deleteOneInterface_no_deleteServer (env : DeleteEnv) (fuel : Nat)
    (serverID : String) (ts : Bool) (portID : String) :
    ∀ c ∈ (deleteOneInterface env fuel serverID ts portID).1,
      ∀ s, c ≠ .deleteServer s := by
  intro c hc s
  unfold deleteOneInterface at hc
  cases hd : env.detach serverID portID with
  | error e => rw [hd] at hc; simp at hc; subst hc; simp
  | ok u =>
    rw [hd] at hc
    dsimp only at hc
    cases h2 : trunkTeardown env fuel ts portID with
    | mk trT rT =>
      rw [h2] at hc
      have htt : ∀ c2 ∈ trT, ∀ s2, c2 ≠ Call.deleteServer s2 := by
        intro c2 hc2 s2
        rcases trunkTeardown_calls env fuel ts portID c2 (by rw [h2]; exact hc2) with
          h | ⟨t2, h⟩ <;> subst h <;> simp
      cases rT with
      | error e =>
        dsimp only at hc
        rcases List.mem_cons.mp hc with h | h
        · subst h; simp
        · exact htt c h s
      | ok v =>
        dsimp only at hc
        cases hp : pollDelete (env.portDeleteResp portID) (.deletePort portID)
            ("error deleting the port " ++ portID) 0 fuel with
        | mk trP rP =>
          rw [hp] at hc
          dsimp only at hc
          rcases List.mem_cons.mp hc with h | h
          · subst h; simp
          · rcases List.mem_append.mp h with h | h
            · exact htt c h s
            · have := (pollDelete_trace (env.portDeleteResp portID) (.deletePort portID)
                ("error deleting the port " ++ portID) fuel 0).1 c (by rw [hp]; exact h)
              subst this; simp

/-- The interface loop never issues a server delete. -/
theorem deleteInterfacesLoop_no_deleteServer (env : DeleteEnv) (fuel : Nat)
    (serverID : String) (ts : Bool) :
    ∀ (l : List String), ∀ c ∈ (deleteInterfacesLoop env fuel serverID ts l).1,
      ∀ s, c ≠ .deleteServer s := by
  intro l
  induction l with
  | nil => intro c hc; simp [deleteInterfacesLoop] at hc
  | cons p rest ih =>
    intro c hc s
    unfold deleteInterfacesLoop at hc
    cases h1 : deleteOneInterface env fuel serverID ts p with
    | mk tr r =>
      rw [h1] at hc
      have hone : ∀ c2 ∈ tr, ∀ s2, c2 ≠ Call.deleteServer s2 := by
        intro c2 hc2 s2
        exact deleteOneInterface_no_deleteServer env fuel serverID ts p c2
          (by rw [h1]; exact hc2) s2
      cases r with
      | error e => dsimp only at hc; exact hone c hc s
      | ok u =>
        dsimp only at hc
        cases h2 : deleteInterfacesLoop env fuel serverID ts rest with
        | mk tr2 r2 =>
          rw [h2] at hc
          dsimp only at hc
          rcases List.mem_append.mp hc with h | h
          · exact hone c h s
          · exact ih c (by rw [h2]; exact h) s

/-- A successful interface loop's trace splits at any member into the traces
before it, its own successful teardown trace, and the traces after it. -/
theorem deleteInterfacesLoop_split (env : DeleteEnv) (fuel : Nat)
    (serverID : String) (ts : Bool) :
    ∀ (l : List String) (p : String) (tr : List Call),
      p ∈ l →
      deleteInterfacesLoop env fuel serverID ts l = (tr, .ok ()) →
      ∃ pre trSeg post, tr = pre ++ trSeg ++ post
        ∧ deleteOneInterface env fuel serverID ts p = (trSeg, .ok ()) := by
  intro l
  induction l with
  | nil => intro p tr hp; simp at hp
  | cons q rest ih =>
    intro p tr hp heq
    unfold deleteInterfacesLoop at heq
    cases h1 : deleteOneInterface env fuel serverID ts q with
    | mk trQ rQ =>
      rw [h1] at heq
      cases rQ with
      | error e =>
        dsimp only at heq
        rw [Prod.mk.injEq] at heq
        exact absurd heq.2 (by simp)
      | ok u =>
        cases u
        dsimp only at heq
        cases h2 : deleteInterfacesLoop env fuel serverID ts rest with
        | mk tr2 r2 =>
          rw [h2] at heq
          dsimp only at heq
          rw [Prod.mk.injEq] at heq
          obtain ⟨htr, hr2⟩ := heq
          rcases List.mem_cons.mp hp with h | h
          · subst h
            exact ⟨[], trQ, tr2, by rw [← htr]; simp, h1⟩
          · have h2ok : deleteInterfacesLoop env fuel serverID ts rest = (tr2, .ok ()) := by
              rw [h2, hr2]
            obtain ⟨pre, trSeg, post, hsplit, hseg⟩ := ih p tr2 h h2ok
            refine ⟨trQ ++ pre, trSeg, post, ?_, hseg⟩
            rw [← htr, hsplit]
            simp [List.append_assoc]

/-- C3: deleting an instance with an attached interface whose port has
exactly one bound trunk, with trunk support reported by the backend, issues
in order: a non-empty polled run of trunk deletions, then a non-empty polled
run of port deletions, and the server delete strictly last — the server
delete is never issued before every interface's trunk and port teardown has
completed. -/
theorem deleteInstance_trunk_port_server_order
    (env : DeleteEnv) (fuel : Nat) (serverID : String)
    (l : List String) (p t : String)
    (hif : env.interfaces serverID = .ok l)
    (hp : p ∈ l)
    (hts : getTrunkSupport env.extensions = .ok true)
    (htr : env.trunksOfPort p = .ok [t])
    (hok : (deleteInstance env fuel serverID).2 = .ok ()) :
    ∃ pre tks pks mid,
      (deleteInstance env fuel serverID).1 =
        pre ++ tks ++ pks ++ mid ++ [Call.deleteServer serverID]
      ∧ tks ≠ [] ∧ (∀ c ∈ tks, c = Call.deleteTrunk t)
      ∧ pks ≠ [] ∧ (∀ c ∈ pks, c = Call.deletePort p)
      ∧ (∀ c ∈ pre ++ tks ++ pks ++ mid, ∀ s, c ≠ Call.deleteServer s) := by
  have hlen : ¬ (l.length < 1) := by
    have := List.length_pos.mpr (List.ne_nil_of_mem hp)
    omega
  cases hloop : deleteInterfacesLoop env fuel serverID true l with
  | mk trL rL =>
    cases rL with
    | error e =>
      exfalso
      unfold deleteInstance at hok
      rw [hif] at hok
      dsimp only at hok
      rw [if_neg hlen, hts] at hok
      dsimp only at hok
      rw [hloop] at hok
      simp at hok
    | ok u =>
      cases u
      have htrace : (deleteInstance env fuel serverID).1 =
          .listInterfaces serverID :: .getExtensions :: (trL ++ [.deleteServer serverID]) := by
        unfold deleteInstance
        rw [hif]
        dsimp only
        rw [if_neg hlen, hts]
        dsimp only
        rw [hloop]
      obtain ⟨pre0, trSeg, post0, hsplit, hseg⟩ :=
        deleteInterfacesLoop_split env fuel serverID true l p trL hp hloop
      obtain ⟨tks, pks, hshape, htne, htall, hpne, hpall⟩ :=
        deleteOneInterface_success_shape env fuel serverID p t htr trSeg hseg
      refine ⟨Call.listInterfaces serverID :: Call.getExtensions ::
          (pre0 ++ [Call.detachInterface serverID p, Call.listTrunksByPort p]),
        tks, pks, post0, ?_, htne, htall, hpne, hpall, ?_⟩
      · rw [htrace, hsplit, hshape]
        simp [List.append_assoc]
      · intro c hc s
        have h1 : ∀ c2 ∈ trL, ∀ s2, c2 ≠ Call.deleteServer s2 := by
          intro c2 hc2 s2
          exact deleteInterfacesLoop_no_deleteServer env fuel serverID true l c2
            (by rw [hloop]; exact hc2) s2
        have hpre0 : ∀ c2 ∈ pre0, c2 ∈ trL := by
          intro c2 hc2; rw [hsplit]; simp [hc2]
        have hpost0 : ∀ c2 ∈ post0, c2 ∈ trL := by
          intro c2 hc2; rw [hsplit]; simp [hc2]
        rcases List.mem_append.mp hc with h | h
        · rcases List.mem_append.mp h with h | h
          · rcases List.mem_append.mp h with h | h
            · rcases List.mem_cons.mp h with h | h
              · subst h; simp
              · rcases List.mem_cons.mp h with h | h
                · subst h; simp
                · rcases List.mem_append.mp h with h | h
                  · exact h1 c (hpre0 c h) s
                  · simp at h
                    rcases h with h | h <;> subst h <;> simp
            · have := htall c h; subst this; simp
          · have := hpall c h; subst this; simp
        · exact h1 c (hpost0 c h) s

/-- Witness for C3: a concrete teardown with one interface bound to one
trunk, all deletions succeeding at the first attempt. -/
theorem deleteInstance_trunk_port_server_order_witness :
    ∃ pre tks pks mid,
      (deleteInstance
        { interfaces := fun _ => .ok ["port-1"], extensions := .ok ["trunk"]
          detach := fun _ _ => .ok (), trunksOfPort := fun _ => .ok ["trunk-1"]
          trunkDeleteResp := fun _ _ => .ok (), portDeleteResp := fun _ _ => .ok ()
          serverDelete := fun _ => .ok (), parseProviderID := fun s => .ok s
          getServerGoneAt := fun _ _ => .error { msg := "404", isNotFound := true, isRetryable := false }
          parseIP := fun _ => true } 2 "srv-9").1 =
        pre ++ tks ++ pks ++ mid ++ [Call.deleteServer "srv-9"]
      ∧ tks ≠ [] ∧ (∀ c ∈ tks, c = Call.deleteTrunk "trunk-1")
      ∧ pks ≠ [] ∧ (∀ c ∈ pks, c = Call.deletePort "port-1")
      ∧ (∀ c ∈ pre ++ tks ++ pks ++ mid, ∀ s, c ≠ Call.deleteServer s) :=
  deleteInstance_trunk_port_server_order
    { interfaces := fun _ => .ok ["port-1"], extensions := .ok ["trunk"]
      detach := fun _ _ => .ok (), trunksOfPort := fun _ => .ok ["trunk-1"]
      trunkDeleteResp := fun _ _ => .ok (), portDeleteResp := fun _ _ => .ok ()
      serverDelete := fun _ => .ok (), parseProviderID := fun s => .ok s
      getServerGoneAt := fun _ _ => .error { msg := "404", isNotFound := true, isRetryable := false }
      parseIP := fun _ => true } 2 "srv-9" ["port-1"] "port-1" "trunk-1"
    rfl (by simp) rfl rfl rfl

/-! ### The compensating cleanup on access-subnet violation (C1) -/

/-- An environment exercising the access-subnet cleanup: two networks, no
existing ports, freshly created ports `p1`/`p2` with no fixed IP on the
requested subnet; during cleanup the lookup of `p1` reports not-found. -/
def subnetCleanupEnv : Env :=
  { projectID := "pr", extensions := .ok []
    listSecurityGroups := fun _ => .ok ["sg"]
    resolveNetworks := fun _ => .ok ["net-1", "net-2"]
    subnetsByFilter := fun _ => .ok []
    listImagesByName := fun _ => .ok []
    listPorts := fun _ _ => .ok []
    createPort := fun opts =>
      .ok { id := if opts.networkID = "net-1" then "p1" else "p2"
            networkID := opts.networkID, fixedIPs := [] }
    getPort := fun p =>
      if p = "p1" then .error { msg := "404", isNotFound := true, isRetryable := false }
      else .ok { id := "p2", networkID := "net-2", fixedIPs := [] }
    deletePort := fun _ => .ok ()
    listTrunks := fun _ _ => .ok []
    createTrunk := fun _ _ => .ok "t1"
    replaceTrunkTags := fun _ _ => .ok ()
    flavorID := fun _ => .ok "f1"
    createServer := fun _ => .ok "srv"
    getServerAt := fun _ sid => .ok { id := sid, name := "m", keyName := ""
                                      status := "ACTIVE", accessIPv4 := "", addresses := [] }
    parseIP := fun _ => false }

/-- The instance input for the access-subnet cleanup run: two network
attachments and a requested access subnet no port will satisfy. -/
def subnetCleanupInstance : InstanceIn :=
  { name := "m", image := "", flavor := "fl", sshKeyName := "", userData := ""
    metadata := [], configDrive := none, failureDomain := "az", rootVolume := none
    subnet := "subnet-1", trunk := false, tags := [], securityGroups := []
    networks := [{ id := "net-1", subnet := none }, { id := "net-2", subnet := none }]
    serverGroupID := "" }

/-- C1 evaluation: with a requested access subnet that no port satisfies,
`createInstance` fails before any server create; but because `deletePorts`
returns nil as soon as one port's lookup reports not-found, the second port
created during this invocation (`p2`) is never deleted, while the returned
error reports no cleanup failure. -/
theorem createInstance_cleanup_skips_remaining_created_ports :
    (createInstance subnetCleanupEnv 1 "cl" subnetCleanupInstance).2 =
      .error (wrapErr "no ports with fixed IPs found on Subnet \"subnet-1\"")
  ∧ Call.createPort (portCreateOptsFor "cl" "m" { id := "net-2", subnet := none } []) ∈
      (createInstance subnetCleanupEnv 1 "cl" subnetCleanupInstance).1
  ∧ Call.deletePort "p2" ∉ (createInstance subnetCleanupEnv 1 "cl" subnetCleanupInstance).1
  ∧ Call.deletePort "p1" ∉ (createInstance subnetCleanupEnv 1 "cl" subnetCleanupInstance).1
  ∧ (∀ opts, Call.createServer opts ∉
      (createInstance subnetCleanupEnv 1 "cl" subnetCleanupInstance).1) := by
  refine ⟨rfl, by decide, by decide, by decide, ?_⟩
  intro opts hc
  have : (createInstance subnetCleanupEnv 1 "cl" subnetCleanupInstance).1 =
      [Call.listPorts "m" "net-1",
       Call.createPort (portCreateOptsFor "cl" "m" { id := "net-1", subnet := none } []),
       Call.listPorts "m" "net-2",
       Call.createPort (portCreateOptsFor "cl" "m" { id := "net-2", subnet := none } []),
       Call.getPort "p1"] := rfl
  rw [this] at hc
  simp at hc
